import Mathlib

/-!
PongRaylib: the simulation core of `src/main.c`

A shallow embedding of the brick-breaker's per-frame simulation.

Modelling conventions
* C `float` values are exact rationals (`ℚ`); C `int` values are unbounded
  integers (`Int`).
* The fixed-size C arrays `balls`, `bricks`, `powerups` are functions on
  `Fin MAX_BALLS`, `Fin MAX_BRICKS`, `Fin MAX_POWERUPS`.
* Functions the program calls but does not define (`sqrtf`, `sinf`, `cosf`,
  `DEG2RAD`, `CheckCollisionCircleRec`, `CheckCollisionPointRec`) are the
  fields of a parameter `Lib`; every theorem holds for every `Lib`.
* What the frame reads from outside (frame time, keys, mouse, the values
  returned by `GetRandomValue(40, 140)`) is the record `Input`.
* Drawing, sound, particles, stars and the screen shake never feed back into
  the simulated variables and are left out.
-/

namespace PongRaylib

/-! ## Constants (lines 6-28) -/

def SCREEN_W : ℚ := 1000
def SCREEN_H : ℚ := 800
def PLAY_X : ℚ := 70
def PLAY_Y : ℚ := 90
def PLAY_W : ℚ := 860
def PLAY_H : ℚ := 640
abbrev BRICK_ROWS : Nat := 8
abbrev BRICK_COLS : Nat := 12
def BRICK_GAP : ℚ := 6
abbrev MAX_BRICKS : Nat := BRICK_ROWS * BRICK_COLS
abbrev MAX_BALLS : Nat := 4
abbrev MAX_POWERUPS : Nat := 6
def BASE_PADDLE_W : ℚ := 120
def PADDLE_H : ℚ := 16
def PADDLE_SPEED : ℚ := 520
def BALL_RADIUS : ℚ := 8
def BALL_BASE_SPEED : ℚ := 430

/-! ## Types (lines 30-71) -/

inductive GameState where
  | STATE_MENU
  | STATE_PLAY
  | STATE_PAUSE
  | STATE_CLEAR
  | STATE_OVER
  deriving DecidableEq, Repr

inductive PowerType where
  | POWER_EXTEND
  | POWER_MULTIBALL
  | POWER_SLOW
  | POWER_LIFE
  | POWER_FAST
  | POWER_DEATH
  deriving DecidableEq, Repr

structure Vector2 where
  x : ℚ
  y : ℚ
  deriving DecidableEq, Repr

structure Rectangle where
  x : ℚ
  y : ℚ
  width : ℚ
  height : ℚ
  deriving DecidableEq, Repr

structure Ball where
  pos : Vector2
  vel : Vector2
  radius : ℚ
  active : Bool
  stuck : Bool
  deriving DecidableEq, Repr

structure Brick where
  rect : Rectangle
  hp : Int
  max_hp : Int
  alive : Bool
  solid : Bool
  power_brick : Bool
  power_type : PowerType
  deriving DecidableEq, Repr

structure Powerup where
  pos : Vector2
  vel : Vector2
  radius : ℚ
  type : PowerType
  active : Bool
  deriving DecidableEq, Repr

/-- The external functions used by the simulation: `sqrtf`, `sinf`, `cosf`
from the C maths library, and `DEG2RAD`, `CheckCollisionCircleRec`,
`CheckCollisionPointRec` from raylib. -/
structure Lib where
  sqrtf : ℚ → ℚ
  sinf : ℚ → ℚ
  cosf : ℚ → ℚ
  DEG2RAD : ℚ
  CheckCollisionCircleRec : Vector2 → ℚ → Rectangle → Bool
  CheckCollisionPointRec : Vector2 → Rectangle → Bool

/-- What one iteration of the main loop reads from outside: `GetFrameTime`,
`IsKeyPressed`, `IsKeyDown`, `IsMouseButtonPressed`, `GetMousePosition`, and
the values `GetRandomValue(40, 140)` returns inside `LaunchBall`, indexed by
the call site (`rand_launch i`: the launch of ball `i` at line 503;
`rand_multi p b`: the launch of ball `b` for power-up `p` at line 675). -/
structure Input where
  dt : ℚ
  key_one : Bool
  key_two : Bool
  key_three : Bool
  key_up : Bool
  key_down : Bool
  key_enter : Bool
  key_p : Bool
  key_space : Bool
  down_left : Bool
  down_a : Bool
  down_right : Bool
  down_d : Bool
  mouse_left : Bool
  mouse : Vector2
  rand_launch : Fin MAX_BALLS → Int
  rand_multi : Fin MAX_POWERUPS → Fin MAX_BALLS → Int

/-- The simulated local variables of `main` (lines 353-380). -/
structure Game where
  paddle : Rectangle
  paddle_target_w : ℚ
  balls : Fin MAX_BALLS → Ball
  bricks : Fin MAX_BRICKS → Brick
  powerups : Fin MAX_POWERUPS → Powerup
  state : GameState
  level : Int
  selected_level : Int
  breakable_left : Int
  score : Int
  lives : Int
  combo : Int
  speed_state : Int
  speed_timer : ℚ

/-! ## Helpers (lines 87-201) -/

/-- Lines 87-93. -/
def ClampFloat (v min max : ℚ) : ℚ :=
  if v < min then min
  else if v > max then max
  else v

/-- Lines 95-101. -/
def NormalizeSafe (lib : Lib) (v : Vector2) : Vector2 :=
  let len := lib.sqrtf (v.x * v.x + v.y * v.y)
  if len ≤ 0.0001 then ⟨0, -1⟩
  else ⟨v.x / len, v.y / len⟩

/-- Lines 103-109. -/
def LevelSpeedMult (level : Int) : ℚ :=
  if level ≤ 1 then 0.85
  else if level = 2 then 0.95
  else 1.05

/-- Lines 111-117. -/
def SpeedItemMult (speed_state : Int) : ℚ :=
  if speed_state < 0 then 0.7
  else if speed_state > 0 then 1.35
  else 1.0

/-- Lines 132-143. -/
def ResetBalls (balls : Fin MAX_BALLS → Ball) (paddle : Rectangle) : Fin MAX_BALLS → Ball :=
  let cleared : Fin MAX_BALLS → Ball := fun i =>
    { balls i with active := false, stuck := false, radius := BALL_RADIUS }
  Function.update cleared 0
    { cleared 0 with
      active := true
      stuck := true
      pos := ⟨paddle.x + paddle.width * 0.5, paddle.y - BALL_RADIUS - 2⟩
      vel := ⟨0, -1⟩ }

/-- Lines 145-149; `r` is the value returned by `GetRandomValue(40, 140)`. -/
def LaunchBall (lib : Lib) (r : Int) (ball : Ball) : Ball :=
  let angle : ℚ := r * lib.DEG2RAD
  { ball with vel := ⟨lib.cosf angle, -lib.sinf angle⟩, stuck := false }

/-- Lines 191-200: the slot loop of `SpawnPowerup`, over the remaining slots. -/
def SpawnPowerupFrom (idxs : List (Fin MAX_POWERUPS)) (powerups : Fin MAX_POWERUPS → Powerup)
    (pos : Vector2) (type : PowerType) : Fin MAX_POWERUPS → Powerup :=
  match idxs with
  | [] => powerups
  | i :: rest =>
    if !(powerups i).active then
      Function.update powerups i
        { powerups i with active := true, pos := pos, vel := ⟨0, 160⟩, radius := 12, type := type }
    else SpawnPowerupFrom rest powerups pos type

/-- Lines 189-201. -/
def SpawnPowerup (powerups : Fin MAX_POWERUPS → Powerup) (pos : Vector2) (type : PowerType) :
    Fin MAX_POWERUPS → Powerup :=
  SpawnPowerupFrom (List.finRange MAX_POWERUPS) powerups pos type

/-! ## Level layout decoder (lines 203-298) -/

/-- Lines 205-254: the layout table chosen for `level`. -/
def LevelLayout (level : Int) : List (List Int) :=
  if level = 1 then
    [[0, 0, 1, 2, 1, 1, 3, 1, 2, 1, 0, 0],
     [0, 1, 1, 1, 5, 1, 1, 1, 5, 1, 1, 0],
     [1, 2, 1, 1, 1, 6, 1, 1, 1, 1, 2, 1],
     [1, 1, 1, 3, 1, 1, 1, 1, 3, 1, 1, 1],
     [1, 1, 2, 1, 5, 1, 1, 1, 5, 2, 1, 1],
     [0, 1, 6, 1, 1, 1, 1, 1, 1, 1, 1, 0],
     [0, 0, 1, 1, 2, 1, 1, 2, 1, 1, 0, 0],
     [0, 0, 0, 1, 1, 1, 1, 1, 1, 0, 0, 0]]
  else if level = 2 then
    [[0, 0, 2, 1, 1, 3, 1, 1, 2, 1, 0, 0],
     [0, 1, 1, 5, 4, 1, 1, 4, 5, 7, 1, 0],
     [1, 1, 1, 2, 1, 6, 1, 1, 2, 1, 7, 1],
     [1, 2, 1, 1, 1, 1, 1, 1, 1, 1, 2, 1],
     [1, 1, 1, 3, 5, 1, 1, 5, 3, 1, 1, 1],
     [0, 1, 7, 1, 2, 1, 1, 2, 1, 1, 1, 0],
     [0, 0, 1, 4, 1, 1, 1, 1, 4, 1, 0, 0],
     [0, 0, 0, 1, 1, 1, 1, 1, 1, 0, 0, 0]]
  else
    [[2, 1, 1, 1, 3, 1, 1, 3, 1, 1, 1, 2],
     [1, 1, 1, 4, 5, 1, 1, 5, 4, 7, 1, 1],
     [1, 7, 1, 1, 8, 8, 8, 8, 1, 1, 2, 1],
     [1, 1, 1, 1, 2, 1, 1, 2, 1, 1, 1, 1],
     [1, 1, 2, 1, 6, 4, 4, 6, 1, 2, 7, 1],
     [1, 8, 1, 3, 1, 5, 5, 1, 3, 1, 8, 1],
     [4, 8, 1, 1, 7, 1, 1, 2, 1, 1, 8, 1],
     [1, 1, 2, 1, 1, 1, 1, 1, 1, 2, 4, 1]]

/-- The entry `layout[r][c]` (the array is zero-initialised at line 205). -/
def LayoutAt (level : Int) (r c : Nat) : Int :=
  ((LevelLayout level).getD r []).getD c 0

/-- Lines 261-292: the brick written to `bricks[r * BRICK_COLS + c]`. -/
def InitBrick (level : Int) (r c : Nat) : Brick :=
  let val := LayoutAt level r c
  let brick_w : ℚ := (PLAY_W - (BRICK_COLS - 1) * BRICK_GAP) / BRICK_COLS
  let brick_h : ℚ := 24
  let b0 : Brick :=
    { rect := ⟨PLAY_X + c * (brick_w + BRICK_GAP), PLAY_Y + 40 + r * (brick_h + BRICK_GAP),
               brick_w, brick_h⟩
      hp := 1
      max_hp := 1
      alive := decide (val > 0)
      solid := false
      power_brick := false
      power_type := PowerType.POWER_MULTIBALL }
  if val = 2 then { b0 with power_brick := true, power_type := PowerType.POWER_MULTIBALL }
  else if val = 3 then { b0 with power_brick := true, power_type := PowerType.POWER_EXTEND }
  else if val = 4 then { b0 with power_brick := true, power_type := PowerType.POWER_DEATH }
  else if val = 5 then { b0 with power_brick := true, power_type := PowerType.POWER_SLOW }
  else if val = 6 then { b0 with power_brick := true, power_type := PowerType.POWER_LIFE }
  else if val = 7 then { b0 with power_brick := true, power_type := PowerType.POWER_FAST }
  else if val = 8 then { b0 with solid := true }
  else b0

/-- Lines 203-298: the brick array and the value stored in `*breakable_left`
(the counter is incremented once per alive, non-solid brick, in index order). -/
def InitLevel (level : Int) : (Fin MAX_BRICKS → Brick) × Int :=
  let bricks : Fin MAX_BRICKS → Brick := fun idx =>
    InitBrick level (idx.val / BRICK_COLS) (idx.val % BRICK_COLS)
  let breakable_left : Int :=
    (List.finRange MAX_BRICKS).foldl
      (fun n idx => if (bricks idx).alive && !(bricks idx).solid then n + 1 else n) 0
  (bricks, breakable_left)

/-! ## The main loop (lines 353-723) -/

/-- Lines 353-383: the variables of `main` when the loop is first entered. -/
def InitGame : Game :=
  let paddle : Rectangle :=
    ⟨PLAY_X + PLAY_W * 0.5 - BASE_PADDLE_W * 0.5, PLAY_Y + PLAY_H - 40, BASE_PADDLE_W, PADDLE_H⟩
  let lv := InitLevel 1
  { paddle := paddle
    paddle_target_w := BASE_PADDLE_W
    balls := ResetBalls (fun _ => ⟨⟨0, 0⟩, ⟨0, 0⟩, 0, false, false⟩) paddle
    bricks := lv.1
    powerups := fun _ => ⟨⟨0, 0⟩, ⟨0, 0⟩, 0, PowerType.POWER_EXTEND, false⟩
    state := GameState.STATE_MENU
    level := 1
    selected_level := 1
    breakable_left := lv.2
    score := 0
    lives := 3
    combo := 0
    speed_state := 0
    speed_timer := 0 }

/-- Lines 441-456 (the same statements as lines 420-435): start a game on
`selected_level`. -/
def StartGame (g : Game) : Game :=
  let paddle : Rectangle :=
    { g.paddle with
      width := BASE_PADDLE_W
      x := PLAY_X + PLAY_W * 0.5 - BASE_PADDLE_W * 0.5 }
  let lv := InitLevel g.selected_level
  { g with
    level := g.selected_level
    score := 0
    lives := 3
    combo := 0
    speed_state := 0
    speed_timer := 0
    paddle_target_w := BASE_PADDLE_W
    paddle := paddle
    bricks := lv.1
    breakable_left := lv.2
    balls := ResetBalls g.balls paddle
    powerups := fun p => { g.powerups p with active := false }
    state := GameState.STATE_PLAY }

/-- Lines 399-414: the keyboard selection of the level. -/
def MenuSelect (inp : Input) (selected_level : Int) : Int :=
  let s1 := if inp.key_one then 1 else selected_level
  let s2 := if inp.key_two then 2 else s1
  let s3 := if inp.key_three then 3 else s2
  let s4 := if inp.key_up then (if s3 - 1 < 1 then 3 else s3 - 1) else s3
  let s5 := if inp.key_down then (if s4 + 1 > 3 then 1 else s4 + 1) else s4
  s5

/-- Lines 393-397. -/
def MenuButtons (i : Fin 3) : Rectangle :=
  match i with
  | 0 => ⟨SCREEN_W / 2 - 140, 250, 280, 34⟩
  | 1 => ⟨SCREEN_W / 2 - 140, 290, 280, 34⟩
  | 2 => ⟨SCREEN_W / 2 - 140, 330, 280, 34⟩

/-- Lines 417-438: the button loop, over the remaining buttons; it stops at
the first button under the mouse. -/
def MenuClick (lib : Lib) (inp : Input) (idxs : List (Fin 3)) (g : Game) : Game :=
  match idxs with
  | [] => g
  | i :: rest =>
    if lib.CheckCollisionPointRec inp.mouse (MenuButtons i) then
      StartGame { g with selected_level := (i.val : Int) + 1 }
    else MenuClick lib inp rest g

/-- Lines 392-457: a frame in `STATE_MENU`. -/
def MenuFrame (lib : Lib) (inp : Input) (g : Game) : Game :=
  let g1 := { g with selected_level := MenuSelect inp g.selected_level }
  let g2 := if inp.mouse_left then MenuClick lib inp (List.finRange 3) g1 else g1
  if inp.key_enter then StartGame g2 else g2

/-- Lines 475-481. -/
def AnyStuck (balls : Fin MAX_BALLS → Ball) : Bool :=
  (List.finRange MAX_BALLS).any (fun i => (balls i).active && (balls i).stuck)

/-- Lines 484-493: the paddle update, run when no ball is stuck. -/
def UpdatePaddle (inp : Input) (g : Game) : Game :=
  let move0 : ℚ := 0
  let move1 := if inp.down_left || inp.down_a then move0 - 1 else move0
  let move2 := if inp.down_right || inp.down_d then move1 + 1 else move1
  let x1 := g.paddle.x + move2 * PADDLE_SPEED * inp.dt
  let x2 := ClampFloat x1 PLAY_X (PLAY_X + PLAY_W - g.paddle.width)
  let w := g.paddle.width + (g.paddle_target_w - g.paddle.width) * 8 * inp.dt
  let x3 := ClampFloat x2 PLAY_X (PLAY_X + PLAY_W - w)
  { g with paddle := { g.paddle with x := x3, width := w } }

/-- Lines 501-505: launch every stuck ball. -/
def LaunchStuck (lib : Lib) (inp : Input) (g : Game) : Game :=
  { g with
    balls := fun i =>
      if (g.balls i).active && (g.balls i).stuck then LaunchBall lib (inp.rand_launch i) (g.balls i)
      else g.balls i }

/-- Lines 518-542: integrate the ball, bounce it off the walls, and deactivate
it below the field. -/
def MoveBall (dt current_speed : ℚ) (b : Ball) : Ball :=
  let b1 : Ball :=
    { b with pos := ⟨b.pos.x + b.vel.x * dt * current_speed, b.pos.y + b.vel.y * dt * current_speed⟩ }
  let b2 : Ball :=
    if b1.pos.x - b1.radius < PLAY_X then
      { b1 with pos := ⟨PLAY_X + b1.radius, b1.pos.y⟩, vel := ⟨b1.vel.x * -1, b1.vel.y⟩ }
    else b1
  let b3 : Ball :=
    if b2.pos.x + b2.radius > PLAY_X + PLAY_W then
      { b2 with pos := ⟨PLAY_X + PLAY_W - b2.radius, b2.pos.y⟩, vel := ⟨b2.vel.x * -1, b2.vel.y⟩ }
    else b2
  let b4 : Ball :=
    if b3.pos.y - b3.radius < PLAY_Y then
      { b3 with pos := ⟨b3.pos.x, PLAY_Y + b3.radius⟩, vel := ⟨b3.vel.x, b3.vel.y * -1⟩ }
    else b3
  if b4.pos.y - b4.radius > PLAY_Y + PLAY_H then { b4 with active := false } else b4

/-- Lines 544-548: the condition of the paddle bounce. -/
def PaddleHit (lib : Lib) (paddle : Rectangle) (b : Ball) : Bool :=
  lib.CheckCollisionCircleRec b.pos b.radius ⟨paddle.x, paddle.y, paddle.width, paddle.height⟩
    && decide (b.vel.y > 0)

/-- Lines 544-558: the paddle bounce of ball `i`. -/
def PaddleBounce (lib : Lib) (g : Game) (i : Fin MAX_BALLS) : Game :=
  let b := g.balls i
  if PaddleHit lib g.paddle b then
    let hit := (b.pos.x - (g.paddle.x + g.paddle.width * 0.5)) / (g.paddle.width * 0.5)
    let hit := ClampFloat hit (-1) 1
    let angle := hit * 70 * lib.DEG2RAD
    { g with
      balls := Function.update g.balls i { b with vel := ⟨lib.sinf angle, -lib.cosf angle⟩ }
      combo := 0 }
  else g

/-- Lines 566-615: ball `i` resolves its collision with brick `b`. -/
def HitBrick (lib : Lib) (g : Game) (i : Fin MAX_BALLS) (b : Fin MAX_BRICKS) : Game :=
  let ball := g.balls i
  let br := g.bricks b
  let nearest_x := ClampFloat ball.pos.x br.rect.x (br.rect.x + br.rect.width)
  let nearest_y := ClampFloat ball.pos.y br.rect.y (br.rect.y + br.rect.height)
  let dx := ball.pos.x - nearest_x
  let dy := ball.pos.y - nearest_y
  let v : Vector2 :=
    if |dx| > |dy| then ⟨ball.vel.x * -1, ball.vel.y⟩ else ⟨ball.vel.x, ball.vel.y * -1⟩
  let g1 : Game := { g with balls := Function.update g.balls i { ball with vel := NormalizeSafe lib v } }
  if !br.solid then
    let br1 : Brick := { br with hp := br.hp - 1 }
    if br1.hp ≤ 0 then
      let br2 : Brick := { br1 with alive := false }
      let g2 : Game :=
        { g1 with
          bricks := Function.update g1.bricks b br2
          breakable_left := g1.breakable_left - 1
          score := g1.score + (100 + g1.combo * 30)
          combo := g1.combo + 1 }
      if br2.power_brick then
        { g2 with
          powerups :=
            SpawnPowerup g2.powerups
              ⟨br2.rect.x + br2.rect.width * 0.5, br2.rect.y + br2.rect.height * 0.5⟩
              br2.power_type }
      else g2
    else
      { g1 with bricks := Function.update g1.bricks b br1, score := g1.score + 40 }
  else
    { g1 with score := g1.score + 10 }

/-- Lines 560-618: the brick loop of ball `i`, over the remaining bricks; the
second component is `bounced`. -/
def BrickLoop (lib : Lib) (idxs : List (Fin MAX_BRICKS)) (g : Game) (i : Fin MAX_BALLS) :
    Game × Bool :=
  match idxs with
  | [] => (g, false)
  | b :: rest =>
    if !(g.bricks b).alive then BrickLoop lib rest g i
    else if lib.CheckCollisionCircleRec (g.balls i).pos (g.balls i).radius (g.bricks b).rect then
      (HitBrick lib g i b, true)
    else BrickLoop lib rest g i

/-- Lines 508-624: the loop body for ball `i`. -/
def UpdateBall (lib : Lib) (dt current_speed : ℚ) (g : Game) (i : Fin MAX_BALLS) : Game :=
  if !(g.balls i).active then g
  else if (g.balls i).stuck then
    { g with
      balls := Function.update g.balls i
        { g.balls i with
          pos := ⟨g.paddle.x + g.paddle.width * 0.5, g.paddle.y - (g.balls i).radius - 2⟩ } }
  else
    let g1 : Game := { g with balls := Function.update g.balls i (MoveBall dt current_speed (g.balls i)) }
    let g2 := PaddleBounce lib g1 i
    let r := BrickLoop lib (List.finRange MAX_BRICKS) g2 i
    if r.2 then
      let ball := r.1.balls i
      { r.1 with
        balls := Function.update r.1.balls i
          { ball with
            pos := ⟨ball.pos.x + ball.vel.x * dt * current_speed,
                    ball.pos.y + ball.vel.y * dt * current_speed⟩ } }
    else r.1

/-- Lines 626-632. -/
def AnyBall (balls : Fin MAX_BALLS → Ball) : Bool :=
  (List.finRange MAX_BALLS).any (fun i => (balls i).active)

/-- Lines 633-648: the loss of a life when no ball is active. -/
def BallLoss (g : Game) : Game :=
  if !AnyBall g.balls then
    let g1 : Game := { g with lives := g.lives - 1, combo := 0 }
    if g1.lives ≤ 0 then { g1 with state := GameState.STATE_OVER }
    else
      { g1 with
        balls := ResetBalls g1.balls g1.paddle
        paddle_target_w := BASE_PADDLE_W
        paddle :=
          { g1.paddle with
            width := BASE_PADDLE_W
            x := PLAY_X + PLAY_W * 0.5 - BASE_PADDLE_W * 0.5 }
        speed_state := 0
        speed_timer := 0 }
  else g

/-- Lines 666-693: the effect of the collected power-up in slot `p`. -/
def ApplyPower (lib : Lib) (inp : Input) (g : Game) (p : Fin MAX_POWERUPS) : Game :=
  let type := (g.powerups p).type
  if type = PowerType.POWER_EXTEND then { g with paddle_target_w := BASE_PADDLE_W * 1.6 }
  else if type = PowerType.POWER_MULTIBALL then
    { g with
      balls := fun b =>
        if !(g.balls b).active then
          LaunchBall lib (inp.rand_multi p b)
            { g.balls b with
              active := true
              stuck := false
              pos := ⟨g.paddle.x + g.paddle.width * 0.5, g.paddle.y - 20⟩ }
        else g.balls b }
  else if type = PowerType.POWER_SLOW then { g with speed_state := -1, speed_timer := 10 }
  else if type = PowerType.POWER_LIFE then { g with lives := g.lives + 1 }
  else if type = PowerType.POWER_FAST then { g with speed_state := 1, speed_timer := 10 }
  else if type = PowerType.POWER_DEATH then
    let g1 : Game := { g with lives := g.lives - 1 }
    if g1.lives ≤ 0 then { g1 with state := GameState.STATE_OVER } else g1
  else g

/-- Lines 650-695: the loop body for power-up slot `p`. -/
def UpdatePowerup (lib : Lib) (inp : Input) (any_stuck : Bool) (g : Game)
    (p : Fin MAX_POWERUPS) : Game :=
  let pu := g.powerups p
  if !pu.active then g
  else
    let pu1 : Powerup :=
      if !any_stuck then { pu with pos := ⟨pu.pos.x, pu.pos.y + pu.vel.y * inp.dt⟩ } else pu
    if pu1.pos.y - pu1.radius > PLAY_Y + PLAY_H then
      { g with powerups := Function.update g.powerups p { pu1 with active := false } }
    else if lib.CheckCollisionCircleRec pu1.pos pu1.radius
        ⟨g.paddle.x, g.paddle.y, g.paddle.width, g.paddle.height⟩ then
      ApplyPower lib inp
        { g with powerups := Function.update g.powerups p { pu1 with active := false } } p
    else
      { g with powerups := Function.update g.powerups p pu1 }

/-- Lines 697-703. -/
def SpeedTimer (dt : ℚ) (g : Game) : Game :=
  if g.speed_timer > 0 then
    let g1 : Game := { g with speed_timer := g.speed_timer - dt }
    if g1.speed_timer ≤ 0 then { g1 with speed_timer := 0, speed_state := 0 } else g1
  else g

/-- Lines 718-722. -/
def ClearCheck (g : Game) : Game :=
  if g.breakable_left ≤ 0 then { g with state := GameState.STATE_CLEAR } else g

/-- Lines 496-498. -/
def CurrentSpeed (g : Game) : ℚ :=
  BALL_BASE_SPEED * LevelSpeedMult g.level * SpeedItemMult g.speed_state

/-- Lines 471-624: the pause key, the paddle, the launch and the ball loop of
a frame in `STATE_PLAY`. -/
def PlayBalls (lib : Lib) (inp : Input) (g : Game) : Game :=
  let g1 : Game := if inp.key_p then { g with state := GameState.STATE_PAUSE } else g
  let any_stuck := AnyStuck g1.balls
  let g2 := if !any_stuck then UpdatePaddle inp g1 else g1
  let current_speed := CurrentSpeed g2
  let g3 := if inp.key_space then LaunchStuck lib inp g2 else g2
  (List.finRange MAX_BALLS).foldl (UpdateBall lib inp.dt current_speed) g3

/-- Lines 650-695: the power-up loop over the slots `idxs`; `any_stuck` is the
flag computed at lines 475-481. -/
def PowerupLoop (lib : Lib) (inp : Input) (any_stuck : Bool) (idxs : List (Fin MAX_POWERUPS))
    (g : Game) : Game :=
  idxs.foldl (UpdatePowerup lib inp any_stuck) g

/-- Lines 470-723: a frame in `STATE_PLAY`. -/
def PlayFrame (lib : Lib) (inp : Input) (g : Game) : Game :=
  let g4 := PlayBalls lib inp g
  let g5 := BallLoss g4
  let g6 := PowerupLoop lib inp (AnyStuck g.balls) (List.finRange MAX_POWERUPS) g5
  let g7 := SpeedTimer inp.dt g6
  ClearCheck g7

/-- Lines 386-723: one iteration of the main loop. -/
def Frame (lib : Lib) (inp : Input) (g : Game) : Game :=
  match g.state with
  | GameState.STATE_MENU => MenuFrame lib inp g
  | GameState.STATE_PAUSE => if inp.key_p then { g with state := GameState.STATE_PLAY } else g
  | GameState.STATE_OVER => if inp.key_enter then { g with state := GameState.STATE_MENU } else g
  | GameState.STATE_CLEAR => if inp.key_enter then { g with state := GameState.STATE_MENU } else g
  | GameState.STATE_PLAY => PlayFrame lib inp g

/-- The states at the frame boundaries of a run whose inputs all satisfy `ok`. -/
inductive ReachableVia (lib : Lib) (ok : Input → Prop) : Game → Prop where
  | init : ReachableVia lib ok InitGame
  | step (inp : Input) (g : Game) : ok inp → ReachableVia lib ok g →
      ReachableVia lib ok (Frame lib inp g)

/-- The states at the frame boundaries of any run of the program. -/
def Reachable (lib : Lib) (g : Game) : Prop :=
  ReachableVia lib (fun _ => True) g

/-! ## Notions used to state the properties -/

/-- The number of entries of the layout table of `level` that are neither 0
nor 8. -/
def BreakableEntries (level : Int) : Int :=
  (((LevelLayout level).flatten.filter (fun v => decide (v ≠ 0) && decide (v ≠ 8))).length : Int)

/-- The twelve state changes a frame is allowed to make. -/
def LegalTransition : GameState → GameState → Bool
  | GameState.STATE_MENU, GameState.STATE_MENU => true
  | GameState.STATE_MENU, GameState.STATE_PLAY => true
  | GameState.STATE_PLAY, GameState.STATE_PLAY => true
  | GameState.STATE_PLAY, GameState.STATE_PAUSE => true
  | GameState.STATE_PLAY, GameState.STATE_CLEAR => true
  | GameState.STATE_PLAY, GameState.STATE_OVER => true
  | GameState.STATE_PAUSE, GameState.STATE_PAUSE => true
  | GameState.STATE_PAUSE, GameState.STATE_PLAY => true
  | GameState.STATE_CLEAR, GameState.STATE_CLEAR => true
  | GameState.STATE_CLEAR, GameState.STATE_MENU => true
  | GameState.STATE_OVER, GameState.STATE_OVER => true
  | GameState.STATE_OVER, GameState.STATE_MENU => true
  | _, _ => false

/-- The number of bricks that are alive and not solid. -/
def CountBreakable (bricks : Fin MAX_BRICKS → Brick) : Int :=
  ((Finset.univ.filter (fun b => (bricks b).alive = true ∧ (bricks b).solid = false)).card : Int)

/-- The variables the ball loop never writes are equal in `g` and `g'`. -/
def BallKeeps (g g' : Game) : Prop :=
  g'.state = g.state ∧ g'.lives = g.lives ∧ g'.level = g.level ∧
    g'.selected_level = g.selected_level ∧ g'.paddle = g.paddle ∧
    g'.paddle_target_w = g.paddle_target_w ∧ g'.speed_state = g.speed_state ∧
    g'.speed_timer = g.speed_timer

/-- The variables the power-up loop never writes are equal in `g` and `g'`. -/
def PowerKeeps (g g' : Game) : Prop :=
  g'.bricks = g.bricks ∧ g'.breakable_left = g.breakable_left ∧ g'.score = g.score ∧
    g'.combo = g.combo ∧ g'.level = g.level ∧ g'.selected_level = g.selected_level ∧
    g'.paddle = g.paddle

/-- Brick `b` is alive and overlaps ball `i`: the test of lines 562-565. -/
def Overlaps (lib : Lib) (g : Game) (i : Fin MAX_BALLS) (b : Fin MAX_BRICKS) : Prop :=
  (g.bricks b).alive = true ∧
    lib.CheckCollisionCircleRec (g.balls i).pos (g.balls i).radius (g.bricks b).rect = true

/-! ## Sample inputs -/

/-- A sample library: the circle test is the clamped-nearest-point distance
test, the point test is containment, and the maths functions are short
polynomial or Newton approximations. -/
def SampleLib : Lib where
  sqrtf := fun v =>
    if v ≤ 0 then 0
    else
      let step : ℚ → ℚ := fun x => (x + v / x) / 2
      step (step (step (step ((v + 1) / 2))))
  sinf := fun a => a - a ^ 3 / 6 + a ^ 5 / 120 - a ^ 7 / 5040
  cosf := fun a => 1 - a ^ 2 / 2 + a ^ 4 / 24 - a ^ 6 / 720
  DEG2RAD := 355 / 113 / 180
  CheckCollisionCircleRec := fun c r rec =>
    let nx := ClampFloat c.x rec.x (rec.x + rec.width)
    let ny := ClampFloat c.y rec.y (rec.y + rec.height)
    decide ((c.x - nx) * (c.x - nx) + (c.y - ny) * (c.y - ny) ≤ r * r)
  CheckCollisionPointRec := fun pt rec =>
    decide (rec.x ≤ pt.x) && decide (pt.x < rec.x + rec.width) &&
      decide (rec.y ≤ pt.y) && decide (pt.y < rec.y + rec.height)

/-- A frame of 1/60 s in which no key or button is pressed or held. -/
def IdleInput : Input where
  dt := 1 / 60
  key_one := false
  key_two := false
  key_three := false
  key_up := false
  key_down := false
  key_enter := false
  key_p := false
  key_space := false
  down_left := false
  down_a := false
  down_right := false
  down_d := false
  mouse_left := false
  mouse := ⟨0, 0⟩
  rand_launch := fun _ => 90
  rand_multi := fun _ _ => 90

/-- The idle frame with Enter pressed. -/
def EnterInput : Input :=
  { IdleInput with key_enter := true }

/-- A level-2 position late in a game: only brick 87 (row 7, column 3, a plain
brick) is left, one life is left, ball 0 flies up just below that brick, and
the DEATH power-up of brick (1, 4) is about to touch the paddle. -/
def LastBrickGame : Game :=
  { paddle := ⟨340, 690, 120, 16⟩
    paddle_target_w := 120
    balls := fun i =>
      if i = 0 then ⟨⟨320, 375⟩, ⟨0, -1⟩, 8, true, false⟩
      else ⟨⟨0, 0⟩, ⟨0, -1⟩, 8, false, false⟩
    bricks := fun b =>
      if b = ⟨87, by decide⟩ then (InitLevel 2).1 b
      else if ((InitLevel 2).1 b).alive then { (InitLevel 2).1 b with alive := false, hp := 0 }
      else (InitLevel 2).1 b
    powerups := fun p =>
      if p = 0 then ⟨⟨4701 / 12, 677⟩, ⟨0, 160⟩, 12, PowerType.POWER_DEATH, true⟩
      else ⟨⟨0, 0⟩, ⟨0, 0⟩, 0, PowerType.POWER_EXTEND, false⟩
    state := GameState.STATE_PLAY
    level := 2
    selected_level := 2
    breakable_left := 1
    score := 9000
    lives := 1
    combo := 0
    speed_state := 0
    speed_timer := 0 }

/-- A level-1 position with one life left whose only ball is about to fall
below the field. -/
def LastLifeGame : Game :=
  { Frame SampleLib EnterInput InitGame with
    balls := fun i =>
      if i = 0 then ⟨⟨500, 736⟩, ⟨0, 1⟩, 8, true, false⟩
      else ⟨⟨0, 0⟩, ⟨0, -1⟩, 8, false, false⟩
    lives := 1 }

/-- Lines 518-558 for an active, launched ball `i`: the state in which its
brick loop starts (the ball has moved and the paddle bounce is done). -/
def BeforeBricks (lib : Lib) (dt current_speed : ℚ) (g : Game) (i : Fin MAX_BALLS) : Game :=
  PaddleBounce lib
    { g with balls := Function.update g.balls i (MoveBall dt current_speed (g.balls i)) } i

/-- Brick `b` is the first brick, in index order, that is alive and overlaps
ball `i`. -/
def FirstOverlap (lib : Lib) (g : Game) (i : Fin MAX_BALLS) (b : Fin MAX_BRICKS) : Prop :=
  Overlaps lib g i b ∧ ∀ j : Fin MAX_BRICKS, j < b → ¬ Overlaps lib g i j

/-- A level-1 game right after its start, except that ball 0 is already
launched: it flies straight up and is just under brick 87 (row 7, column 3, a
plain brick). -/
def UnderBrickGame : Game :=
  { Frame SampleLib EnterInput InitGame with
    balls := fun i =>
      if i = 0 then ⟨⟨320, 375⟩, ⟨0, -1⟩, 8, true, false⟩
      else ⟨⟨0, 0⟩, ⟨0, -1⟩, 8, false, false⟩ }

/-- The breakable counter equals the number of alive, non-solid bricks. -/
def BrickInv (g : Game) : Prop :=
  g.breakable_left = CountBreakable g.bricks

/-- Ball `i` bounces off the paddle in its loop body: it is active and
launched, and the test of lines 546-548 succeeds after its move. -/
def PaddleBounced (lib : Lib) (dt current_speed : ℚ) (g : Game) (i : Fin MAX_BALLS) : Bool :=
  (g.balls i).active && !(g.balls i).stuck &&
    PaddleHit lib g.paddle (MoveBall dt current_speed (g.balls i))

/-- The frame starts a new game from the menu: Enter is pressed, or the mouse
is pressed on one of the three level buttons. -/
def StartsGame (lib : Lib) (inp : Input) (g : Game) : Bool :=
  decide (g.state = GameState.STATE_MENU) &&
    (inp.key_enter ||
      (inp.mouse_left &&
        (List.finRange 3).any (fun i => lib.CheckCollisionPointRec inp.mouse (MenuButtons i))))

/-- A level-1 game right after its start, except that ball 0 is already
launched and comes down onto the middle of the paddle, with a combo of 3. -/
def OverPaddleGame : Game :=
  { Frame SampleLib EnterInput InitGame with
    balls := fun i =>
      if i = 0 then ⟨⟨500, 684⟩, ⟨0, 1⟩, 8, true, false⟩
      else ⟨⟨0, 0⟩, ⟨0, -1⟩, 8, false, false⟩
    combo := 3
    score := 600 }

/-- Bookkeeping of a Play frame: combo is not negative, the score is at least
`s0`, and combo plus the number of alive non-solid bricks is at most `c0`. -/
def Tally (c0 s0 : Int) (g : Game) : Prop :=
  0 ≤ g.combo ∧ s0 ≤ g.score ∧ g.combo + CountBreakable g.bricks ≤ c0

/-- The paddle is inside the field, and its width lies between the base width
and the target width, which is at most 1.6 times the base width. -/
def PaddleInv (g : Game) : Prop :=
  BASE_PADDLE_W ≤ g.paddle.width ∧ g.paddle.width ≤ g.paddle_target_w ∧
    g.paddle_target_w ≤ BASE_PADDLE_W * 1.6 ∧
    PLAY_X ≤ g.paddle.x ∧ g.paddle.x ≤ PLAY_X + PLAY_W - g.paddle.width

/-- The frame delta is between 0 and 1/8 second. -/
def ShortFrame (inp : Input) : Prop :=
  0 ≤ inp.dt ∧ inp.dt ≤ 1 / 8

/-- Lines 653-655: power-up `pu` after its fall in this frame (it does not
move when `any_stuck` is set). -/
def MovedPowerup (inp : Input) (any_stuck : Bool) (pu : Powerup) : Powerup :=
  if !any_stuck then { pu with pos := ⟨pu.pos.x, pu.pos.y + pu.vel.y * inp.dt⟩ } else pu

/-- Power-up slot `p` is collected in this frame: it is active, it has not
left the field after its fall, and it touches the paddle (lines 651-662). -/
def Collects (lib : Lib) (inp : Input) (any_stuck : Bool) (g : Game) (p : Fin MAX_POWERUPS) :
    Bool :=
  (g.powerups p).active &&
    !decide ((MovedPowerup inp any_stuck (g.powerups p)).pos.y -
      (MovedPowerup inp any_stuck (g.powerups p)).radius > PLAY_Y + PLAY_H) &&
    lib.CheckCollisionCircleRec (MovedPowerup inp any_stuck (g.powerups p)).pos
      (MovedPowerup inp any_stuck (g.powerups p)).radius
      ⟨g.paddle.x, g.paddle.y, g.paddle.width, g.paddle.height⟩

/-- The game state in which the effect of the collected power-up `p` is
applied: slot `p` holds the moved power-up, deactivated (line 663). -/
def Collected (inp : Input) (any_stuck : Bool) (g : Game) (p : Fin MAX_POWERUPS) : Game :=
  { g with
    powerups := Function.update g.powerups p
      { MovedPowerup inp any_stuck (g.powerups p) with active := false } }

/-- The number of active balls. -/
def CountActive (balls : Fin MAX_BALLS → Ball) : Nat :=
  (Finset.univ.filter (fun b => (balls b).active = true)).card

/-- The number of inactive ball slots. -/
def CountInactive (balls : Fin MAX_BALLS → Ball) : Nat :=
  (Finset.univ.filter (fun b => (balls b).active = false)).card

/-- A non-zero speed state has a positive timer. -/
def SpeedInv (g : Game) : Prop :=
  g.speed_state ≠ 0 → 0 < g.speed_timer

/-- The frame delta is not negative. -/
def ForwardFrame (inp : Input) : Prop :=
  0 ≤ inp.dt

/-- A level-1 game in which ball 0 flies up in the middle of the field and a
power-up of type `t` is about to touch the paddle; `w` is the paddle width and
`tw` the target width. -/
def PickupGame (t : PowerType) (w tw : ℚ) : Game :=
  { Frame SampleLib EnterInput InitGame with
    paddle := ⟨440, 690, w, 16⟩
    paddle_target_w := tw
    balls := fun i =>
      if i = 0 then ⟨⟨500, 600⟩, ⟨0, -1⟩, 8, true, false⟩
      else ⟨⟨0, 0⟩, ⟨0, -1⟩, 8, false, false⟩
    powerups := fun p =>
      if p = 0 then ⟨⟨500, 677⟩, ⟨0, 160⟩, 12, t, true⟩
      else ⟨⟨0, 0⟩, ⟨0, 0⟩, 0, PowerType.POWER_EXTEND, false⟩ }

/-- A level-1 game with three lives in which the only ball is about to fall
below the field while an EXTEND power-up is about to touch the paddle. -/
def LosingExtendGame : Game :=
  { PickupGame PowerType.POWER_EXTEND 120 120 with
    balls := fun i =>
      if i = 0 then ⟨⟨500, 736⟩, ⟨0, 1⟩, 8, true, false⟩
      else ⟨⟨0, 0⟩, ⟨0, -1⟩, 8, false, false⟩ }

/-- The state one idle frame after `LosingExtendGame`: the ball was lost, a
new ball is stuck on the reset paddle of width 120, and the EXTEND power-up
collected later in that frame has set the target width to 192. -/
def StuckExtendGame : Game :=
  Frame SampleLib IdleInput LosingExtendGame

/-- The number of active power-ups. -/
def CountPowerups (powerups : Fin MAX_POWERUPS → Powerup) : Nat :=
  (Finset.univ.filter (fun p => (powerups p).active = true)).card

/-- Slot `p` is the first inactive power-up slot, in index order. -/
def FirstFree (powerups : Fin MAX_POWERUPS → Powerup) (p : Fin MAX_POWERUPS) : Prop :=
  (powerups p).active = false ∧ ∀ j : Fin MAX_POWERUPS, j < p → (powerups j).active = true

/-- The centre of a brick: the position given to `SpawnPowerup` (lines 600-602). -/
def BrickCentre (br : Brick) : Vector2 :=
  ⟨br.rect.x + br.rect.width * 0.5, br.rect.y + br.rect.height * 0.5⟩

/-- Six MULTIBALL power-bricks of level 1: the bricks 3, 8, 25, 34, 50, 57. -/
def SamplePowerBrick (p : Fin MAX_POWERUPS) : Fin MAX_BRICKS :=
  match p with
  | 0 => ⟨3, by decide⟩
  | 1 => ⟨8, by decide⟩
  | 2 => ⟨25, by decide⟩
  | 3 => ⟨34, by decide⟩
  | 4 => ⟨50, by decide⟩
  | 5 => ⟨57, by decide⟩

/-- A level-1 game in which brick 88 is already broken and ball 0 flies up
just under brick 76 (row 6, column 4, a MULTIBALL power-brick); the first `n`
bricks of `SamplePowerBrick` are broken too and their power-ups are falling in
the slots 0 to `n - 1`. -/
def UnderPowerBrickGame (n : Nat) : Game :=
  { Frame SampleLib EnterInput InitGame with
    balls := fun i =>
      if i = 0 then ⟨⟨390, 345⟩, ⟨0, -1⟩, 8, true, false⟩
      else ⟨⟨0, 0⟩, ⟨0, -1⟩, 8, false, false⟩
    bricks := fun b =>
      if b = ⟨88, by decide⟩ ∨ ∃ p : Fin MAX_POWERUPS, p.val < n ∧ SamplePowerBrick p = b then
        { (InitLevel 1).1 b with alive := false, hp := 0 }
      else (InitLevel 1).1 b
    breakable_left := 77 - n
    score := 100 * (n + 1)
    powerups := fun p =>
      if p.val < n then
        ⟨⟨(BrickCentre ((InitLevel 1).1 (SamplePowerBrick p))).x, 450⟩, ⟨0, 160⟩, 12,
          PowerType.POWER_MULTIBALL, true⟩
      else ⟨⟨0, 0⟩, ⟨0, 0⟩, 0, PowerType.POWER_EXTEND, false⟩ }

/-- A run of Play frames without a reset of the paddle: every frame of the
list starts in Play with no ball stuck and does not lose all its balls. -/
def CalmRun (lib : Lib) : Game → List Input → Prop
  | _, [] => True
  | g, inp :: rest =>
    g.state = GameState.STATE_PLAY ∧ AnyStuck g.balls = false ∧
      AnyBall (PlayBalls lib inp g).balls = true ∧ CalmRun lib (Frame lib inp g) rest

/-- Along the run, the paddle width never decreases from one frame boundary
to the next and never exceeds the target width, which stays 192. -/
def WidthGrows (lib : Lib) : Game → List Input → Prop
  | _, [] => True
  | g, inp :: rest =>
    g.paddle.width ≤ (Frame lib inp g).paddle.width ∧
      (Frame lib inp g).paddle.width ≤ (Frame lib inp g).paddle_target_w ∧
      (Frame lib inp g).paddle_target_w = 192 ∧ WidthGrows lib (Frame lib inp g) rest

/-- The state at the end of the idle frame in which an EXTEND power-up is
collected by a paddle of base width: the width is 120, the target width 192,
and ball 0 flies up. -/
def ExtendedGame : Game :=
  Frame SampleLib IdleInput (PickupGame PowerType.POWER_EXTEND 120 120)

/-- An idle frame of 1/4 second. -/
def SlowInput : Input :=
  { IdleInput with dt := 1 / 4 }

/-! ## Level layout decoder: facts -/

theorem InitLevel_breakable_one : (InitLevel 1).2 = 78 := by decide!

theorem InitLevel_breakable_two : (InitLevel 2).2 = 78 := by decide!

theorem InitLevel_breakable_three : (InitLevel 3).2 = 88 := by decide!

theorem BreakableEntries_one : BreakableEntries 1 = 78 := by decide!

theorem BreakableEntries_two : BreakableEntries 2 = 78 := by decide!

theorem BreakableEntries_three : BreakableEntries 3 = 88 := by decide!

theorem InitLevel_breakable_entries (L : Int) (hL : L = 1 ∨ L = 2 ∨ L = 3) :
    (InitLevel L).2 = BreakableEntries L := by
  rcases hL with h | h | h <;> subst h
  · rw [InitLevel_breakable_one, BreakableEntries_one]
  · rw [InitLevel_breakable_two, BreakableEntries_two]
  · rw [InitLevel_breakable_three, BreakableEntries_three]

/-! ## Menu frames -/

theorem StartGame_selected (g : Game) : (StartGame g).selected_level = g.selected_level := rfl

theorem ResetBalls_zero (balls : Fin MAX_BALLS → Ball) (paddle : Rectangle) :
    (ResetBalls balls paddle 0).active = true ∧ (ResetBalls balls paddle 0).stuck = true := by
  simp [ResetBalls]

theorem ResetBalls_other (balls : Fin MAX_BALLS → Ball) (paddle : Rectangle) (i : Fin MAX_BALLS)
    (hi : i ≠ 0) : (ResetBalls balls paddle i).active = false := by
  simp [ResetBalls, Function.update_noteq hi]

theorem MenuClick_selected (lib : Lib) (inp : Input) (idxs : List (Fin 3)) (g : Game) :
    (MenuClick lib inp idxs g).selected_level = g.selected_level ∨
      (MenuClick lib inp idxs g).state = GameState.STATE_PLAY := by
  induction idxs with
  | nil => left; rfl
  | cons i rest ih =>
    unfold MenuClick
    split
    · right; rfl
    · exact ih

/-- Claim C1: a Menu frame with Enter pressed ends in Play on the selected
level `L` (the selection in effect when Enter is handled, which is the frame's
starting selection when no selection input is given), with score 0, lives 3,
combo 0, speed state 0 and timer 0, paddle and target width 120 with the
paddle centred, no active power-up, ball 0 active and stuck, the other balls
inactive, and the breakable counter equal to the number of layout entries of
level `L` other than 0 and 8 (78 for level 1). -/
theorem C1_menu_enter_starts_game (lib : Lib) (inp : Input) (g : Game) (L : Int)
    (hL : L = 1 ∨ L = 2 ∨ L = 3)
    (hstate : g.state = GameState.STATE_MENU)
    (henter : inp.key_enter = true)
    (hsel : (Frame lib inp g).selected_level = L) :
    (Frame lib inp g).state = GameState.STATE_PLAY ∧
    (Frame lib inp g).level = L ∧
    (Frame lib inp g).score = 0 ∧
    (Frame lib inp g).lives = 3 ∧
    (Frame lib inp g).combo = 0 ∧
    (Frame lib inp g).speed_state = 0 ∧
    (Frame lib inp g).speed_timer = 0 ∧
    (Frame lib inp g).paddle.width = 120 ∧
    (Frame lib inp g).paddle_target_w = 120 ∧
    BASE_PADDLE_W = 120 ∧
    (Frame lib inp g).paddle.x + (Frame lib inp g).paddle.width / 2 = PLAY_X + PLAY_W / 2 ∧
    (∀ p, ((Frame lib inp g).powerups p).active = false) ∧
    ((Frame lib inp g).balls 0).active = true ∧
    ((Frame lib inp g).balls 0).stuck = true ∧
    (∀ i, i ≠ 0 → ((Frame lib inp g).balls i).active = false) ∧
    (Frame lib inp g).breakable_left = BreakableEntries L ∧
    BreakableEntries 1 = 78 ∧
    (inp.key_one = false → inp.key_two = false → inp.key_three = false →
      inp.key_up = false → inp.key_down = false → inp.mouse_left = false →
      g.selected_level = L) := by
  have hF : ∃ g2 : Game, Frame lib inp g = StartGame g2 ∧
      (inp.key_one = false → inp.key_two = false → inp.key_three = false →
        inp.key_up = false → inp.key_down = false → inp.mouse_left = false →
        g2.selected_level = g.selected_level) := by
    refine ⟨if inp.mouse_left then
        MenuClick lib inp (List.finRange 3)
          { g with selected_level := MenuSelect inp g.selected_level }
      else { g with selected_level := MenuSelect inp g.selected_level }, ?_, ?_⟩
    · simp only [Frame, hstate, MenuFrame, henter, if_true]
    · intro h1 h2 h3 h4 h5 h6
      simp [h6, MenuSelect, h1, h2, h3, h4, h5]
  obtain ⟨g2, hg2, hkeep⟩ := hF
  rw [hg2] at hsel ⊢
  rw [StartGame_selected] at hsel
  refine ⟨rfl, hsel, rfl, rfl, rfl, rfl, rfl, rfl, rfl, rfl, ?_, fun _ => rfl,
    (ResetBalls_zero _ _).1, (ResetBalls_zero _ _).2, fun i hi => ResetBalls_other _ _ i hi,
    ?_, BreakableEntries_one, ?_⟩
  · show PLAY_X + PLAY_W * 0.5 - BASE_PADDLE_W * 0.5 + BASE_PADDLE_W / 2 = PLAY_X + PLAY_W / 2
    norm_num [PLAY_X, PLAY_W, BASE_PADDLE_W]
  · show (InitLevel g2.selected_level).2 = BreakableEntries L
    rw [hsel]
    exact InitLevel_breakable_entries L hL
  · intro h1 h2 h3 h4 h5 h6
    rw [← hkeep h1 h2 h3 h4 h5 h6]
    exact hsel

/-- Witness for C1: the first frame of the program with Enter pressed. -/
theorem C1_menu_enter_starts_game_witness :
    (Frame SampleLib EnterInput InitGame).state = GameState.STATE_PLAY ∧
    (Frame SampleLib EnterInput InitGame).level = 1 ∧
    (Frame SampleLib EnterInput InitGame).breakable_left = 78 := by
  have h := C1_menu_enter_starts_game SampleLib EnterInput InitGame 1 (Or.inl rfl) rfl rfl rfl
  exact ⟨h.1, h.2.1, by rw [h.2.2.2.2.2.2.2.2.2.2.2.2.2.2.2.1]; exact h.2.2.2.2.2.2.2.2.2.2.2.2.2.2.2.2.1⟩

/-- Claim C2 (as the code has it): for every level and every grid cell the
layout code is between 0 and 8, and `InitLevel` binds the codes 2, 3, 4, 5, 6,
7 to power-bricks of type MULTIBALL, EXTEND, DEATH, SLOW, LIFE, FAST, in all
three tables alike, while the codes 0, 1 and 8 never give a power-brick. -/
theorem C2_layout_code_binding (level : Int) (idx : Fin MAX_BRICKS) :
    (0 ≤ LayoutAt level (idx.val / BRICK_COLS) (idx.val % BRICK_COLS) ∧
      LayoutAt level (idx.val / BRICK_COLS) (idx.val % BRICK_COLS) ≤ 8) ∧
    (LayoutAt level (idx.val / BRICK_COLS) (idx.val % BRICK_COLS) = 2 →
      ((InitLevel level).1 idx).power_brick = true ∧
        ((InitLevel level).1 idx).power_type = PowerType.POWER_MULTIBALL) ∧
    (LayoutAt level (idx.val / BRICK_COLS) (idx.val % BRICK_COLS) = 3 →
      ((InitLevel level).1 idx).power_brick = true ∧
        ((InitLevel level).1 idx).power_type = PowerType.POWER_EXTEND) ∧
    (LayoutAt level (idx.val / BRICK_COLS) (idx.val % BRICK_COLS) = 4 →
      ((InitLevel level).1 idx).power_brick = true ∧
        ((InitLevel level).1 idx).power_type = PowerType.POWER_DEATH) ∧
    (LayoutAt level (idx.val / BRICK_COLS) (idx.val % BRICK_COLS) = 5 →
      ((InitLevel level).1 idx).power_brick = true ∧
        ((InitLevel level).1 idx).power_type = PowerType.POWER_SLOW) ∧
    (LayoutAt level (idx.val / BRICK_COLS) (idx.val % BRICK_COLS) = 6 →
      ((InitLevel level).1 idx).power_brick = true ∧
        ((InitLevel level).1 idx).power_type = PowerType.POWER_LIFE) ∧
    (LayoutAt level (idx.val / BRICK_COLS) (idx.val % BRICK_COLS) = 7 →
      ((InitLevel level).1 idx).power_brick = true ∧
        ((InitLevel level).1 idx).power_type = PowerType.POWER_FAST) ∧
    (LayoutAt level (idx.val / BRICK_COLS) (idx.val % BRICK_COLS) = 0 ∨
      LayoutAt level (idx.val / BRICK_COLS) (idx.val % BRICK_COLS) = 1 ∨
      LayoutAt level (idx.val / BRICK_COLS) (idx.val % BRICK_COLS) = 8 →
      ((InitLevel level).1 idx).power_brick = false) := by
  refine ⟨?_, ?_⟩
  · have h1 : ∀ j : Fin MAX_BRICKS, 0 ≤ LayoutAt 1 (j.val / BRICK_COLS) (j.val % BRICK_COLS) ∧
        LayoutAt 1 (j.val / BRICK_COLS) (j.val % BRICK_COLS) ≤ 8 := by decide!
    have h2 : ∀ j : Fin MAX_BRICKS, 0 ≤ LayoutAt 2 (j.val / BRICK_COLS) (j.val % BRICK_COLS) ∧
        LayoutAt 2 (j.val / BRICK_COLS) (j.val % BRICK_COLS) ≤ 8 := by decide!
    have h3 : ∀ j : Fin MAX_BRICKS, 0 ≤ LayoutAt 3 (j.val / BRICK_COLS) (j.val % BRICK_COLS) ∧
        LayoutAt 3 (j.val / BRICK_COLS) (j.val % BRICK_COLS) ≤ 8 := by decide!
    by_cases e1 : level = 1
    · subst e1; exact h1 idx
    · by_cases e2 : level = 2
      · subst e2; exact h2 idx
      · have e : ∀ r c, LayoutAt level r c = LayoutAt 3 r c := by
          intro r c
          simp [LayoutAt, LevelLayout, e1, e2]
        rw [e]
        exact h3 idx
  · have e : (InitLevel level).1 idx =
        InitBrick level (idx.val / BRICK_COLS) (idx.val % BRICK_COLS) := rfl
    rw [e]
    unfold InitBrick
    dsimp only
    generalize LayoutAt level (idx.val / BRICK_COLS) (idx.val % BRICK_COLS) = val
    refine ⟨?_, ?_, ?_, ?_, ?_, ?_, ?_⟩
    · intro h; subst h; simp
    · intro h; subst h; simp
    · intro h; subst h; simp
    · intro h; subst h; simp
    · intro h; subst h; simp
    · intro h; subst h; simp
    · intro h
      rcases h with h | h | h <;> subst h <;> simp

/-- Witness for C2: cell (1, 4) of level 2 holds code 4 and is a DEATH brick. -/
theorem C2_layout_code_binding_witness :
    ((InitLevel 2).1 ⟨16, by decide⟩).power_brick = true ∧
      ((InitLevel 2).1 ⟨16, by decide⟩).power_type = PowerType.POWER_DEATH :=
  (C2_layout_code_binding 2 ⟨16, by decide⟩).2.2.2.1 (by decide)

/-- Counterexample to C2 as stated: cell (1, 4) of the level-2 table holds
code 4, and `InitLevel` makes it a DEATH power-brick, not a SLOW one. -/
theorem C2_counterexample :
    LayoutAt 2 (16 / BRICK_COLS) (16 % BRICK_COLS) = 4 ∧
    ((InitLevel 2).1 ⟨16, by decide⟩).power_brick = true ∧
    ((InitLevel 2).1 ⟨16, by decide⟩).power_type = PowerType.POWER_DEATH ∧
    ((InitLevel 2).1 ⟨16, by decide⟩).power_type ≠ PowerType.POWER_SLOW := by
  decide

/-! ## Play frames: what each stage leaves unchanged -/

theorem BallKeeps_refl (g : Game) : BallKeeps g g := ⟨rfl, rfl, rfl, rfl, rfl, rfl, rfl, rfl⟩

theorem BallKeeps_trans {a b c : Game} (h1 : BallKeeps a b) (h2 : BallKeeps b c) :
    BallKeeps a c := by
  obtain ⟨a1, a2, a3, a4, a5, a6, a7, a8⟩ := h1
  obtain ⟨b1, b2, b3, b4, b5, b6, b7, b8⟩ := h2
  exact ⟨b1.trans a1, b2.trans a2, b3.trans a3, b4.trans a4, b5.trans a5, b6.trans a6,
    b7.trans a7, b8.trans a8⟩

theorem HitBrick_keeps (lib : Lib) (g : Game) (i : Fin MAX_BALLS) (b : Fin MAX_BRICKS) :
    BallKeeps g (HitBrick lib g i b) := by
  unfold HitBrick
  dsimp only
  split_ifs <;> exact ⟨rfl, rfl, rfl, rfl, rfl, rfl, rfl, rfl⟩

theorem BrickLoop_keeps (lib : Lib) (idxs : List (Fin MAX_BRICKS)) (g : Game) (i : Fin MAX_BALLS) :
    BallKeeps g (BrickLoop lib idxs g i).1 := by
  induction idxs with
  | nil => exact BallKeeps_refl g
  | cons b rest ih =>
    unfold BrickLoop
    split_ifs
    · exact ih
    · exact HitBrick_keeps lib g i b
    · exact ih

theorem PaddleBounce_keeps (lib : Lib) (g : Game) (i : Fin MAX_BALLS) :
    BallKeeps g (PaddleBounce lib g i) := by
  unfold PaddleBounce
  dsimp only
  split_ifs <;> exact ⟨rfl, rfl, rfl, rfl, rfl, rfl, rfl, rfl⟩

theorem UpdateBall_keeps (lib : Lib) (dt cs : ℚ) (g : Game) (i : Fin MAX_BALLS) :
    BallKeeps g (UpdateBall lib dt cs g i) := by
  have h1 := PaddleBounce_keeps lib
    { g with balls := Function.update g.balls i (MoveBall dt cs (g.balls i)) } i
  have h2 := BrickLoop_keeps lib (List.finRange MAX_BRICKS)
    (PaddleBounce lib { g with balls := Function.update g.balls i (MoveBall dt cs (g.balls i)) } i) i
  have h3 := BallKeeps_trans h1 h2
  unfold UpdateBall
  dsimp only
  split_ifs
  · exact BallKeeps_refl g
  · exact ⟨rfl, rfl, rfl, rfl, rfl, rfl, rfl, rfl⟩
  · exact h3
  · exact h3

theorem BallLoop_keeps (lib : Lib) (dt cs : ℚ) (idxs : List (Fin MAX_BALLS)) (g : Game) :
    BallKeeps g (idxs.foldl (UpdateBall lib dt cs) g) := by
  induction idxs generalizing g with
  | nil => exact BallKeeps_refl g
  | cons i rest ih =>
    rw [List.foldl_cons]
    exact BallKeeps_trans (UpdateBall_keeps lib dt cs g i) (ih _)

theorem PlayBalls_state (lib : Lib) (inp : Input) (g : Game) :
    (PlayBalls lib inp g).state =
      if inp.key_p then GameState.STATE_PAUSE else g.state := by
  unfold PlayBalls
  dsimp only
  rw [(BallLoop_keeps lib inp.dt _ _ _).1]
  unfold UpdatePaddle LaunchStuck
  dsimp only
  split_ifs <;> rfl

theorem PlayBalls_lives (lib : Lib) (inp : Input) (g : Game) :
    (PlayBalls lib inp g).lives = g.lives := by
  unfold PlayBalls
  dsimp only
  rw [(BallLoop_keeps lib inp.dt _ _ _).2.1]
  unfold UpdatePaddle LaunchStuck
  dsimp only
  split_ifs <;> rfl

theorem BallLoss_state (g : Game) :
    (BallLoss g).state = g.state ∨ (BallLoss g).state = GameState.STATE_OVER := by
  unfold BallLoss
  dsimp only
  split_ifs
  · right; rfl
  · left; rfl
  · left; rfl

theorem ApplyPower_state (lib : Lib) (inp : Input) (g : Game) (p : Fin MAX_POWERUPS) :
    (ApplyPower lib inp g p).state = g.state ∨
      (ApplyPower lib inp g p).state = GameState.STATE_OVER := by
  unfold ApplyPower
  dsimp only
  split_ifs
  all_goals first
    | (left; rfl)
    | (right; rfl)

theorem UpdatePowerup_state (lib : Lib) (inp : Input) (st : Bool) (g : Game)
    (p : Fin MAX_POWERUPS) :
    (UpdatePowerup lib inp st g p).state = g.state ∨
      (UpdatePowerup lib inp st g p).state = GameState.STATE_OVER := by
  unfold UpdatePowerup
  dsimp only
  split_ifs
  all_goals first
    | (left; rfl)
    | exact ApplyPower_state lib inp _ p

theorem PowerupLoop_state (lib : Lib) (inp : Input) (st : Bool) (idxs : List (Fin MAX_POWERUPS))
    (g : Game) :
    (PowerupLoop lib inp st idxs g).state = g.state ∨
      (PowerupLoop lib inp st idxs g).state = GameState.STATE_OVER := by
  induction idxs generalizing g with
  | nil => left; rfl
  | cons p rest ih =>
    unfold PowerupLoop
    rw [List.foldl_cons]
    rcases ih (UpdatePowerup lib inp st g p) with h | h
    · rcases UpdatePowerup_state lib inp st g p with h2 | h2
      · left; exact h.trans h2
      · right; exact h.trans h2
    · right; exact h

theorem SpeedTimer_state (dt : ℚ) (g : Game) : (SpeedTimer dt g).state = g.state := by
  unfold SpeedTimer
  dsimp only
  split_ifs <;> rfl

theorem ClearCheck_state (g : Game) :
    (ClearCheck g).state = if g.breakable_left ≤ 0 then GameState.STATE_CLEAR else g.state := by
  unfold ClearCheck
  split_ifs <;> rfl

theorem ClearCheck_breakable (g : Game) : (ClearCheck g).breakable_left = g.breakable_left := by
  unfold ClearCheck
  split_ifs <;> rfl

theorem PlayFrame_state_ne_menu (lib : Lib) (inp : Input) (g : Game)
    (h : g.state = GameState.STATE_PLAY) :
    (PlayFrame lib inp g).state ≠ GameState.STATE_MENU := by
  have h4 : (PlayBalls lib inp g).state ≠ GameState.STATE_MENU := by
    rw [PlayBalls_state, h]
    split_ifs <;> decide
  have h5 : (BallLoss (PlayBalls lib inp g)).state ≠ GameState.STATE_MENU := by
    rcases BallLoss_state (PlayBalls lib inp g) with e | e
    · rw [e]; exact h4
    · rw [e]; decide
  have h6 : (PowerupLoop lib inp (AnyStuck g.balls) (List.finRange MAX_POWERUPS)
      (BallLoss (PlayBalls lib inp g))).state ≠ GameState.STATE_MENU := by
    rcases PowerupLoop_state lib inp (AnyStuck g.balls) (List.finRange MAX_POWERUPS)
      (BallLoss (PlayBalls lib inp g)) with e | e
    · rw [e]; exact h5
    · rw [e]; decide
  unfold PlayFrame
  dsimp only
  rw [ClearCheck_state]
  split_ifs
  · decide
  · rw [SpeedTimer_state]; exact h6

theorem MenuClick_state (lib : Lib) (inp : Input) (idxs : List (Fin 3)) (g : Game) :
    (MenuClick lib inp idxs g).state = g.state ∨
      (MenuClick lib inp idxs g).state = GameState.STATE_PLAY := by
  induction idxs with
  | nil => left; rfl
  | cons i rest ih =>
    unfold MenuClick
    split
    · right; rfl
    · exact ih

theorem MenuFrame_state (lib : Lib) (inp : Input) (g : Game) :
    (MenuFrame lib inp g).state = g.state ∨
      (MenuFrame lib inp g).state = GameState.STATE_PLAY := by
  unfold MenuFrame
  dsimp only
  split_ifs
  · right; rfl
  · right; rfl
  · exact MenuClick_state lib inp _ _
  · left; rfl

/-- Claim C3: for every frame, input and frame delta, the pair (state at the
start, state at the end) is one of the twelve legal transitions. -/
theorem C3_only_legal_transitions (lib : Lib) (inp : Input) (g : Game) :
    LegalTransition g.state (Frame lib inp g).state = true := by
  cases hs : g.state
  · have h := MenuFrame_state lib inp g
    have e : Frame lib inp g = MenuFrame lib inp g := by simp only [Frame, hs]
    rw [e]
    rcases h with h | h
    · rw [h, hs]; rfl
    · rw [h]; rfl
  · have h := PlayFrame_state_ne_menu lib inp g hs
    have e : Frame lib inp g = PlayFrame lib inp g := by simp only [Frame, hs]
    rw [e]
    cases h2 : (PlayFrame lib inp g).state
    · exact absurd h2 h
    all_goals rfl
  · have e : Frame lib inp g = if inp.key_p then { g with state := GameState.STATE_PLAY } else g := by
      simp only [Frame, hs]
    rw [e]
    split_ifs
    · rfl
    · rw [hs]; rfl
  · have e : Frame lib inp g = if inp.key_enter then { g with state := GameState.STATE_MENU } else g := by
      simp only [Frame, hs]
    rw [e]
    split_ifs
    · rfl
    · rw [hs]; rfl
  · have e : Frame lib inp g = if inp.key_enter then { g with state := GameState.STATE_MENU } else g := by
      simp only [Frame, hs]
    rw [e]
    split_ifs
    · rfl
    · rw [hs]; rfl

/-! ## Lives and the Over state -/

theorem BallLoss_lives_or_over (g : Game) (h : 0 < g.lives ∨ g.state = GameState.STATE_OVER) :
    0 < (BallLoss g).lives ∨ (BallLoss g).state = GameState.STATE_OVER := by
  unfold BallLoss
  dsimp only
  split_ifs with h1 h2
  · right; rfl
  · left; exact not_le.mp h2
  · exact h

theorem ApplyPower_lives_or_over (lib : Lib) (inp : Input) (g : Game) (p : Fin MAX_POWERUPS)
    (h : 0 < g.lives ∨ g.state = GameState.STATE_OVER) :
    0 < (ApplyPower lib inp g p).lives ∨
      (ApplyPower lib inp g p).state = GameState.STATE_OVER := by
  unfold ApplyPower
  dsimp only
  split_ifs with h1 h2 h3 h4 h5 h6 h7
  · exact h
  · exact h
  · exact h
  · rcases h with h | h
    · left; show 0 < g.lives + 1; omega
    · right; exact h
  · exact h
  · right; rfl
  · left; exact not_le.mp h7
  · exact h

theorem UpdatePowerup_lives_or_over (lib : Lib) (inp : Input) (st : Bool) (g : Game)
    (p : Fin MAX_POWERUPS) (h : 0 < g.lives ∨ g.state = GameState.STATE_OVER) :
    0 < (UpdatePowerup lib inp st g p).lives ∨
      (UpdatePowerup lib inp st g p).state = GameState.STATE_OVER := by
  unfold UpdatePowerup
  dsimp only
  split_ifs
  all_goals first
    | exact h
    | exact ApplyPower_lives_or_over lib inp _ p h

theorem PowerupLoop_lives_or_over (lib : Lib) (inp : Input) (st : Bool)
    (idxs : List (Fin MAX_POWERUPS)) (g : Game)
    (h : 0 < g.lives ∨ g.state = GameState.STATE_OVER) :
    0 < (PowerupLoop lib inp st idxs g).lives ∨
      (PowerupLoop lib inp st idxs g).state = GameState.STATE_OVER := by
  induction idxs generalizing g with
  | nil => exact h
  | cons p rest ih =>
    unfold PowerupLoop
    rw [List.foldl_cons]
    exact ih _ (UpdatePowerup_lives_or_over lib inp st g p h)

theorem PowerupLoop_append (lib : Lib) (inp : Input) (st : Bool)
    (l1 l2 : List (Fin MAX_POWERUPS)) (g : Game) :
    PowerupLoop lib inp st (l1 ++ l2) g =
      PowerupLoop lib inp st l2 (PowerupLoop lib inp st l1 g) := by
  unfold PowerupLoop
  exact List.foldl_append _ _ _ _

theorem PlayFrame_state (lib : Lib) (inp : Input) (g : Game) :
    (PlayFrame lib inp g).state =
      if (PlayFrame lib inp g).breakable_left ≤ 0 then GameState.STATE_CLEAR
      else (PowerupLoop lib inp (AnyStuck g.balls) (List.finRange MAX_POWERUPS)
        (BallLoss (PlayBalls lib inp g))).state := by
  unfold PlayFrame
  dsimp only
  rw [ClearCheck_state, ClearCheck_breakable, SpeedTimer_state]

/-- Claim C4 (as the code has it): in a Play frame that starts with positive
lives, if lives is 0 or below after the ball-loss step or after any of the
power-up slots has been handled, the frame ends in Over when the breakable
counter is positive at the end of the frame, and in Clear when it is not. -/
theorem C4_lives_exhausted_over_unless_clear (lib : Lib) (inp : Input) (g : Game)
    (hplay : g.state = GameState.STATE_PLAY) (hlives : 0 < g.lives) (k : Nat)
    (hzero : (PowerupLoop lib inp (AnyStuck g.balls) ((List.finRange MAX_POWERUPS).take k)
      (BallLoss (PlayBalls lib inp g))).lives ≤ 0) :
    (0 < (Frame lib inp g).breakable_left → (Frame lib inp g).state = GameState.STATE_OVER) ∧
    ((Frame lib inp g).breakable_left ≤ 0 → (Frame lib inp g).state = GameState.STATE_CLEAR) := by
  have e : Frame lib inp g = PlayFrame lib inp g := by simp only [Frame, hplay]
  have h5 : 0 < (BallLoss (PlayBalls lib inp g)).lives ∨
      (BallLoss (PlayBalls lib inp g)).state = GameState.STATE_OVER :=
    BallLoss_lives_or_over _ (Or.inl (by rw [PlayBalls_lives]; exact hlives))
  have hk := PowerupLoop_lives_or_over lib inp (AnyStuck g.balls)
    ((List.finRange MAX_POWERUPS).take k) _ h5
  have hover : (PowerupLoop lib inp (AnyStuck g.balls) ((List.finRange MAX_POWERUPS).take k)
      (BallLoss (PlayBalls lib inp g))).state = GameState.STATE_OVER := by
    rcases hk with hk | hk
    · exact absurd hk (not_lt.mpr hzero)
    · exact hk
  have hall : (PowerupLoop lib inp (AnyStuck g.balls) (List.finRange MAX_POWERUPS)
      (BallLoss (PlayBalls lib inp g))).state = GameState.STATE_OVER := by
    have hsplit := PowerupLoop_append lib inp (AnyStuck g.balls)
      ((List.finRange MAX_POWERUPS).take k) ((List.finRange MAX_POWERUPS).drop k)
      (BallLoss (PlayBalls lib inp g))
    rw [List.take_append_drop] at hsplit
    rw [hsplit]
    rcases PowerupLoop_state lib inp (AnyStuck g.balls) ((List.finRange MAX_POWERUPS).drop k)
      (PowerupLoop lib inp (AnyStuck g.balls) ((List.finRange MAX_POWERUPS).take k)
        (BallLoss (PlayBalls lib inp g))) with h | h
    · rw [h]; exact hover
    · exact h
  rw [e, PlayFrame_state, hall]
  constructor
  · intro hpos
    rw [if_neg (not_le.mpr hpos)]
  · intro hneg
    rw [if_pos hneg]

/-- Witness for C4: the last ball falls out of the field with one life left. -/
theorem C4_lives_exhausted_over_unless_clear_witness :
    (Frame SampleLib IdleInput LastLifeGame).state = GameState.STATE_OVER :=
  (C4_lives_exhausted_over_unless_clear SampleLib IdleInput LastLifeGame rfl (by decide!) 0
    (by decide!)).1 (by decide!)

/-- Counterexample to C4 as stated: the frame starts in Play with one life; a
DEATH power-up reaches the paddle (lives becomes 0) in the frame in which the
ball breaks the last brick, and the frame ends in Clear, not in Over. -/
theorem C4_counterexample :
    LastBrickGame.state = GameState.STATE_PLAY ∧
    0 < LastBrickGame.lives ∧
    (Frame SampleLib IdleInput LastBrickGame).lives ≤ 0 ∧
    (Frame SampleLib IdleInput LastBrickGame).state = GameState.STATE_CLEAR ∧
    (Frame SampleLib IdleInput LastBrickGame).state ≠ GameState.STATE_OVER := by
  decide!

/-- Claim C5: a frame that starts in Play with the breakable counter at 0 or
below after its simulation ends in Clear, and a frame that starts in any other
state never changes the state to Clear. -/
theorem C5_clear_only_from_play (lib : Lib) (inp : Input) (g : Game) :
    (g.state = GameState.STATE_PLAY → (Frame lib inp g).breakable_left ≤ 0 →
      (Frame lib inp g).state = GameState.STATE_CLEAR) ∧
    (g.state ≠ GameState.STATE_PLAY → (Frame lib inp g).state = GameState.STATE_CLEAR →
      g.state = GameState.STATE_CLEAR) := by
  constructor
  · intro hplay hb
    have e : Frame lib inp g = PlayFrame lib inp g := by simp only [Frame, hplay]
    rw [e] at hb ⊢
    rw [PlayFrame_state, if_pos hb]
  · intro hne hc
    cases hs : g.state
    · have e : Frame lib inp g = MenuFrame lib inp g := by simp only [Frame, hs]
      rw [e] at hc
      rcases MenuFrame_state lib inp g with h | h
      · rw [h, hs] at hc; exact absurd hc (by decide)
      · rw [h] at hc; exact absurd hc (by decide)
    · exact absurd hs hne
    · have e : Frame lib inp g =
          if inp.key_p then { g with state := GameState.STATE_PLAY } else g := by
        simp only [Frame, hs]
      rw [e] at hc
      split_ifs at hc
      rw [hs] at hc
      exact absurd hc (by decide)
    · rfl
    · have e : Frame lib inp g =
          if inp.key_enter then { g with state := GameState.STATE_MENU } else g := by
        simp only [Frame, hs]
      rw [e] at hc
      split_ifs at hc
      rw [hs] at hc
      exact absurd hc (by decide)

/-- Witness for C5: the frame in which the last brick is broken. -/
theorem C5_clear_only_from_play_witness :
    (Frame SampleLib IdleInput LastBrickGame).state = GameState.STATE_CLEAR :=
  (C5_clear_only_from_play SampleLib IdleInput LastBrickGame).1 rfl (by decide!)

/-! ## The brick loop -/

theorem UpdateBall_launched (lib : Lib) (dt cs : ℚ) (g : Game) (i : Fin MAX_BALLS)
    (hact : (g.balls i).active = true) (hst : (g.balls i).stuck = false) :
    ((BrickLoop lib (List.finRange MAX_BRICKS) (BeforeBricks lib dt cs g i) i).2 = true →
      UpdateBall lib dt cs g i =
        { (BrickLoop lib (List.finRange MAX_BRICKS) (BeforeBricks lib dt cs g i) i).1 with
          balls := (UpdateBall lib dt cs g i).balls }) ∧
    ((BrickLoop lib (List.finRange MAX_BRICKS) (BeforeBricks lib dt cs g i) i).2 = false →
      UpdateBall lib dt cs g i =
        (BrickLoop lib (List.finRange MAX_BRICKS) (BeforeBricks lib dt cs g i) i).1) := by
  unfold UpdateBall BeforeBricks
  simp only [hact, hst, Bool.not_true, Bool.false_eq_true, if_false]
  constructor
  · intro h
    rw [if_pos h]
  · intro h
    rw [h]
    simp

theorem HitBrick_cases (lib : Lib) (g : Game) (i : Fin MAX_BALLS) (b : Fin MAX_BRICKS) :
    ((g.bricks b).solid = true ∧
      (HitBrick lib g i b).bricks = g.bricks ∧
      (HitBrick lib g i b).breakable_left = g.breakable_left ∧
      (HitBrick lib g i b).combo = g.combo ∧
      (HitBrick lib g i b).score = g.score + 10) ∨
    ((g.bricks b).solid = false ∧ (g.bricks b).hp - 1 ≤ 0 ∧
      (HitBrick lib g i b).bricks =
        Function.update g.bricks b { g.bricks b with hp := (g.bricks b).hp - 1, alive := false } ∧
      (HitBrick lib g i b).breakable_left = g.breakable_left - 1 ∧
      (HitBrick lib g i b).combo = g.combo + 1 ∧
      (HitBrick lib g i b).score = g.score + (100 + g.combo * 30)) ∨
    ((g.bricks b).solid = false ∧ ¬ (g.bricks b).hp - 1 ≤ 0 ∧
      (HitBrick lib g i b).bricks =
        Function.update g.bricks b { g.bricks b with hp := (g.bricks b).hp - 1 } ∧
      (HitBrick lib g i b).breakable_left = g.breakable_left ∧
      (HitBrick lib g i b).combo = g.combo ∧
      (HitBrick lib g i b).score = g.score + 40) := by
  have hsolid : ∀ s : Bool, (!s) = true → s = false := by decide
  have hsolid2 : ∀ s : Bool, ¬ (!s) = true → s = true := by decide
  unfold HitBrick
  dsimp only
  split_ifs with h0 h1 h2 h3
  all_goals first
    | exact Or.inl ⟨hsolid2 _ ‹_›, rfl, rfl, rfl, rfl⟩
    | exact Or.inr (Or.inl ⟨hsolid _ ‹_›, ‹_›, rfl, rfl, rfl, rfl⟩)
    | exact Or.inr (Or.inr ⟨hsolid _ ‹_›, ‹_›, rfl, rfl, rfl, rfl⟩)

theorem BrickLoop_miss (lib : Lib) (idxs : List (Fin MAX_BRICKS)) (g : Game) (i : Fin MAX_BALLS)
    (h : ∀ b ∈ idxs, ¬ Overlaps lib g i b) : BrickLoop lib idxs g i = (g, false) := by
  induction idxs with
  | nil => rfl
  | cons b rest ih =>
    have hb := h b (List.mem_cons_self b rest)
    have hr := ih (fun j hj => h j (List.mem_cons_of_mem b hj))
    unfold BrickLoop
    split_ifs with h1 h2
    · exact hr
    · exfalso
      apply hb
      refine ⟨?_, h2⟩
      simpa using h1
    · exact hr

theorem BrickLoop_first (lib : Lib) (idxs : List (Fin MAX_BRICKS)) (g : Game) (i : Fin MAX_BALLS)
    (hs : idxs.Pairwise (· < ·)) (hex : ∃ b ∈ idxs, Overlaps lib g i b) :
    ∃ b ∈ idxs, Overlaps lib g i b ∧ (∀ j ∈ idxs, j < b → ¬ Overlaps lib g i j) ∧
      BrickLoop lib idxs g i = (HitBrick lib g i b, true) := by
  induction idxs with
  | nil =>
    obtain ⟨b, hb, _⟩ := hex
    exact absurd hb (List.not_mem_nil b)
  | cons c rest ih =>
    rw [List.pairwise_cons] at hs
    by_cases hc : Overlaps lib g i c
    · refine ⟨c, List.mem_cons_self c rest, hc, ?_, ?_⟩
      · intro j hj hlt
        rcases List.mem_cons.mp hj with e | e
        · subst e; exact absurd hlt (lt_irrefl _)
        · exact absurd hlt (not_lt.mpr (le_of_lt (hs.1 j e)))
      · unfold BrickLoop
        have h1 : (g.bricks c).alive = true := hc.1
        have h2 := hc.2
        simp only [h1, Bool.not_true, Bool.false_eq_true, if_false, h2, if_true]
    · have hex2 : ∃ b ∈ rest, Overlaps lib g i b := by
        obtain ⟨b, hb, ho⟩ := hex
        rcases List.mem_cons.mp hb with e | e
        · subst e; exact absurd ho hc
        · exact ⟨b, e, ho⟩
      obtain ⟨b, hb, ho, hfirst, heq⟩ := ih hs.2 hex2
      refine ⟨b, List.mem_cons_of_mem c hb, ho, ?_, ?_⟩
      · intro j hj hlt
        rcases List.mem_cons.mp hj with e | e
        · subst e; exact hc
        · exact hfirst j e hlt
      · unfold BrickLoop
        split_ifs with h1 h2
        · exact heq
        · exfalso
          apply hc
          refine ⟨?_, h2⟩
          simpa using h1
        · exact heq

theorem BrickLoop_result (lib : Lib) (g : Game) (i : Fin MAX_BALLS) :
    ((∀ b, ¬ Overlaps lib g i b) ∧ BrickLoop lib (List.finRange MAX_BRICKS) g i = (g, false)) ∨
    (∃ b, FirstOverlap lib g i b ∧
      BrickLoop lib (List.finRange MAX_BRICKS) g i = (HitBrick lib g i b, true)) := by
  by_cases hex : ∃ b, Overlaps lib g i b
  · right
    obtain ⟨b0, hb0⟩ := hex
    obtain ⟨b, _, ho, hfirst, heq⟩ := BrickLoop_first lib (List.finRange MAX_BRICKS) g i
      (List.pairwise_lt_finRange MAX_BRICKS) ⟨b0, List.mem_finRange b0, hb0⟩
    exact ⟨b, ⟨ho, fun j hj => hfirst j (List.mem_finRange j) hj⟩, heq⟩
  · left
    have hno : ∀ b, ¬ Overlaps lib g i b := fun b hb => hex ⟨b, hb⟩
    exact ⟨hno, BrickLoop_miss lib _ g i (fun b _ => hno b)⟩

/-- Claim C6: when an active, launched ball overlaps an alive brick at the
start of its brick loop (state `BeforeBricks`), the loop body resolves exactly
the first overlapping alive brick `b` in index order and no other brick
changes. If `b` is non-solid with 1 hit-point it becomes not alive, the
breakable counter drops by 1, the score grows by 100 + 30 * combo (combo as it
is when the brick loop starts) and combo grows by 1; at combo 0 that is 100
points and combo 1. If `b` is solid it is unchanged, the breakable counter and
combo are unchanged, and the score grows by 10. -/
theorem C6_first_overlapping_brick_resolved (lib : Lib) (dt cs : ℚ) (g : Game)
    (i : Fin MAX_BALLS)
    (hact : (g.balls i).active = true) (hst : (g.balls i).stuck = false)
    (hover : ∃ b, Overlaps lib (BeforeBricks lib dt cs g i) i b) :
    ∃ b, FirstOverlap lib (BeforeBricks lib dt cs g i) i b ∧
      (∀ j, j ≠ b → (UpdateBall lib dt cs g i).bricks j = (BeforeBricks lib dt cs g i).bricks j) ∧
      (BeforeBricks lib dt cs g i).bricks = g.bricks ∧
      (BeforeBricks lib dt cs g i).breakable_left = g.breakable_left ∧
      (BeforeBricks lib dt cs g i).score = g.score ∧
      ((g.bricks b).solid = false → (g.bricks b).hp = 1 →
        ((UpdateBall lib dt cs g i).bricks b).alive = false ∧
        (UpdateBall lib dt cs g i).breakable_left = g.breakable_left - 1 ∧
        (UpdateBall lib dt cs g i).score =
          g.score + (100 + 30 * (BeforeBricks lib dt cs g i).combo) ∧
        (UpdateBall lib dt cs g i).combo = (BeforeBricks lib dt cs g i).combo + 1 ∧
        ((BeforeBricks lib dt cs g i).combo = 0 →
          (UpdateBall lib dt cs g i).score = g.score + 100 ∧
          (UpdateBall lib dt cs g i).combo = 1)) ∧
      ((g.bricks b).solid = true →
        (UpdateBall lib dt cs g i).bricks b = g.bricks b ∧
        ((UpdateBall lib dt cs g i).bricks b).alive = true ∧
        (UpdateBall lib dt cs g i).breakable_left = g.breakable_left ∧
        (UpdateBall lib dt cs g i).combo = (BeforeBricks lib dt cs g i).combo ∧
        (UpdateBall lib dt cs g i).score = g.score + 10) := by
  have hbr : (BeforeBricks lib dt cs g i).bricks = g.bricks := by
    unfold BeforeBricks PaddleBounce
    dsimp only
    split_ifs <;> rfl
  have hbl : (BeforeBricks lib dt cs g i).breakable_left = g.breakable_left := by
    unfold BeforeBricks PaddleBounce
    dsimp only
    split_ifs <;> rfl
  have hsc : (BeforeBricks lib dt cs g i).score = g.score := by
    unfold BeforeBricks PaddleBounce
    dsimp only
    split_ifs <;> rfl
  rcases BrickLoop_result lib (BeforeBricks lib dt cs g i) i with ⟨hno, _⟩ | ⟨b, hfirst, heq⟩
  · obtain ⟨b, hb⟩ := hover
    exact absurd hb (hno b)
  · have hu := (UpdateBall_launched lib dt cs g i hact hst).1 (by rw [heq])
    rw [heq] at hu
    have hB : (UpdateBall lib dt cs g i).bricks =
        (HitBrick lib (BeforeBricks lib dt cs g i) i b).bricks := by rw [hu]
    have hL : (UpdateBall lib dt cs g i).breakable_left =
        (HitBrick lib (BeforeBricks lib dt cs g i) i b).breakable_left := by rw [hu]
    have hC : (UpdateBall lib dt cs g i).combo =
        (HitBrick lib (BeforeBricks lib dt cs g i) i b).combo := by rw [hu]
    have hS : (UpdateBall lib dt cs g i).score =
        (HitBrick lib (BeforeBricks lib dt cs g i) i b).score := by rw [hu]
    have halive : (g.bricks b).alive = true := by
      have := hfirst.1.1
      rwa [hbr] at this
    refine ⟨b, hfirst, ?_, hbr, hbl, hsc, ?_, ?_⟩
    · intro j hj
      rw [hB]
      rcases HitBrick_cases lib (BeforeBricks lib dt cs g i) i b with
        ⟨_, e, _⟩ | ⟨_, _, e, _⟩ | ⟨_, _, e, _⟩
      · rw [e]
      · rw [e, Function.update_noteq hj]
      · rw [e, Function.update_noteq hj]
    · intro hsolid hhp
      rcases HitBrick_cases lib (BeforeBricks lib dt cs g i) i b with
        ⟨s, _⟩ | ⟨_, _, e1, e2, e3, e4⟩ | ⟨_, hn, _⟩
      · rw [hbr, hsolid] at s
        exact absurd s (by decide)
      · rw [hB, hL, hC, hS, e1, e2, e3, e4, hbl, hsc, Function.update_same]
        refine ⟨rfl, rfl, by ring, rfl, ?_⟩
        intro h0
        rw [h0]
        exact ⟨by ring, by ring⟩
      · rw [hbr, hhp] at hn
        exact absurd (by decide) hn
    · intro hsolid
      rcases HitBrick_cases lib (BeforeBricks lib dt cs g i) i b with
        ⟨_, e1, e2, e3, e4⟩ | ⟨s, _⟩ | ⟨s, _⟩
      · rw [hB, hL, hC, hS, e1, e2, e3, e4, hbr, hbl, hsc]
        exact ⟨rfl, halive, rfl, rfl, rfl⟩
      · rw [hbr, hsolid] at s
        exact absurd s (by decide)
      · rw [hbr, hsolid] at s
        exact absurd s (by decide)

/-- Witness for C6: a ball breaks the plain brick 87 of level 1. -/
theorem C6_first_overlapping_brick_resolved_witness :
    ∃ b, FirstOverlap SampleLib (BeforeBricks SampleLib (1 / 60) (CurrentSpeed UnderBrickGame) UnderBrickGame 0) 0 b ∧
      (∀ j, j ≠ b → (UpdateBall SampleLib (1 / 60) (CurrentSpeed UnderBrickGame) UnderBrickGame 0).bricks j =
        (BeforeBricks SampleLib (1 / 60) (CurrentSpeed UnderBrickGame) UnderBrickGame 0).bricks j) :=
  (C6_first_overlapping_brick_resolved SampleLib (1 / 60) (CurrentSpeed UnderBrickGame) UnderBrickGame 0
    (by decide!) (by decide!) ⟨⟨87, by decide⟩, by unfold Overlaps; decide!⟩).imp
    (fun _ h => ⟨h.1, h.2.1⟩)

/-! ## The breakable counter -/

theorem LevelLayout_other (L : Int) (h1 : L ≠ 1) (h2 : L ≠ 2) : InitLevel L = InitLevel 3 := by
  have e : ∀ r c, InitBrick L r c = InitBrick 3 r c := by
    intro r c
    have e0 : LayoutAt L r c = LayoutAt 3 r c := by
      simp [LayoutAt, LevelLayout, h1, h2]
    unfold InitBrick
    rw [e0]
  unfold InitLevel
  simp only [e]

theorem InitLevel_count (L : Int) : (InitLevel L).2 = CountBreakable (InitLevel L).1 := by
  have c1 : (InitLevel 1).2 = CountBreakable (InitLevel 1).1 := by decide!
  have c2 : (InitLevel 2).2 = CountBreakable (InitLevel 2).1 := by decide!
  have c3 : (InitLevel 3).2 = CountBreakable (InitLevel 3).1 := by decide!
  by_cases h1 : L = 1
  · subst h1; exact c1
  · by_cases h2 : L = 2
    · subst h2; exact c2
    · rw [LevelLayout_other L h1 h2]; exact c3

theorem CountBreakable_update_same (bricks : Fin MAX_BRICKS → Brick) (b : Fin MAX_BRICKS)
    (br : Brick) (ha : br.alive = (bricks b).alive) (hs : br.solid = (bricks b).solid) :
    CountBreakable (Function.update bricks b br) = CountBreakable bricks := by
  unfold CountBreakable
  congr 2
  apply Finset.filter_congr
  intro j _
  by_cases hj : j = b
  · subst hj
    rw [Function.update_same, ha, hs]
  · rw [Function.update_noteq hj]

theorem CountBreakable_update_kill (bricks : Fin MAX_BRICKS → Brick) (b : Fin MAX_BRICKS)
    (br : Brick) (h1 : (bricks b).alive = true) (h2 : (bricks b).solid = false)
    (ha : br.alive = false) :
    CountBreakable (Function.update bricks b br) = CountBreakable bricks - 1 := by
  unfold CountBreakable
  have hmem : b ∈ Finset.univ.filter
      (fun j => (bricks j).alive = true ∧ (bricks j).solid = false) := by
    simp [h1, h2]
  have hset : Finset.univ.filter
      (fun j => (Function.update bricks b br j).alive = true ∧
        (Function.update bricks b br j).solid = false) =
      (Finset.univ.filter
        (fun j => (bricks j).alive = true ∧ (bricks j).solid = false)).erase b := by
    ext j
    simp only [Finset.mem_filter, Finset.mem_univ, true_and, Finset.mem_erase]
    by_cases hj : j = b
    · subst hj
      simp [ha]
    · rw [Function.update_noteq hj]
      simp [hj]
  rw [hset, Finset.card_erase_of_mem hmem]
  have hpos : 0 < (Finset.univ.filter
      (fun j => (bricks j).alive = true ∧ (bricks j).solid = false)).card :=
    Finset.card_pos.mpr ⟨b, hmem⟩
  omega

theorem HitBrick_inv (lib : Lib) (g : Game) (i : Fin MAX_BALLS) (b : Fin MAX_BRICKS)
    (halive : (g.bricks b).alive = true) (h : BrickInv g) : BrickInv (HitBrick lib g i b) := by
  unfold BrickInv at h ⊢
  rcases HitBrick_cases lib g i b with ⟨_, e1, e2, _⟩ | ⟨s, _, e1, e2, _⟩ | ⟨_, _, e1, e2, _⟩
  · rw [e1, e2]; exact h
  · rw [e1, e2, CountBreakable_update_kill g.bricks b _ halive s rfl, h]
  · rw [e1, e2]
    exact h.trans (CountBreakable_update_same g.bricks b
      { g.bricks b with hp := (g.bricks b).hp - 1 } rfl rfl).symm

theorem BrickLoop_inv (lib : Lib) (g : Game) (i : Fin MAX_BALLS) (h : BrickInv g) :
    BrickInv (BrickLoop lib (List.finRange MAX_BRICKS) g i).1 := by
  rcases BrickLoop_result lib g i with ⟨_, e⟩ | ⟨b, hb, e⟩
  · rw [e]; exact h
  · rw [e]; exact HitBrick_inv lib g i b hb.1.1 h

theorem BrickInv_of_eq {g g' : Game} (h1 : g'.bricks = g.bricks)
    (h2 : g'.breakable_left = g.breakable_left) (h : BrickInv g) : BrickInv g' := by
  unfold BrickInv at h ⊢
  rw [h1, h2]; exact h

theorem PaddleBounce_bricks (lib : Lib) (g : Game) (i : Fin MAX_BALLS) :
    (PaddleBounce lib g i).bricks = g.bricks ∧
      (PaddleBounce lib g i).breakable_left = g.breakable_left ∧
      (PaddleBounce lib g i).score = g.score := by
  unfold PaddleBounce
  dsimp only
  split_ifs <;> exact ⟨rfl, rfl, rfl⟩

theorem UpdateBall_inv (lib : Lib) (dt cs : ℚ) (g : Game) (i : Fin MAX_BALLS)
    (h : BrickInv g) : BrickInv (UpdateBall lib dt cs g i) := by
  cases hact : (g.balls i).active
  · have e : UpdateBall lib dt cs g i = g := by
      unfold UpdateBall
      simp [hact]
    rw [e]; exact h
  · cases hst : (g.balls i).stuck
    · have hb : BrickInv (BeforeBricks lib dt cs g i) :=
        BrickInv_of_eq (PaddleBounce_bricks lib _ i).1 (PaddleBounce_bricks lib _ i).2.1 h
      have hl := BrickLoop_inv lib (BeforeBricks lib dt cs g i) i hb
      cases hr : (BrickLoop lib (List.finRange MAX_BRICKS) (BeforeBricks lib dt cs g i) i).2
      · rw [(UpdateBall_launched lib dt cs g i hact hst).2 hr]; exact hl
      · rw [(UpdateBall_launched lib dt cs g i hact hst).1 hr]
        exact BrickInv_of_eq rfl rfl hl
    · have e : UpdateBall lib dt cs g i =
          { g with
            balls := Function.update g.balls i
              { g.balls i with
                pos := ⟨g.paddle.x + g.paddle.width * 0.5, g.paddle.y - (g.balls i).radius - 2⟩ } } := by
        unfold UpdateBall
        simp [hact, hst]
      rw [e]
      exact BrickInv_of_eq rfl rfl h

theorem BallLoop_inv (lib : Lib) (dt cs : ℚ) (idxs : List (Fin MAX_BALLS)) (g : Game)
    (h : BrickInv g) : BrickInv (idxs.foldl (UpdateBall lib dt cs) g) := by
  induction idxs generalizing g with
  | nil => exact h
  | cons i rest ih =>
    rw [List.foldl_cons]
    exact ih _ (UpdateBall_inv lib dt cs g i h)

theorem PlayBalls_inv (lib : Lib) (inp : Input) (g : Game) (h : BrickInv g) :
    BrickInv (PlayBalls lib inp g) := by
  unfold PlayBalls
  dsimp only
  apply BallLoop_inv
  unfold UpdatePaddle LaunchStuck
  dsimp only
  split_ifs <;> exact BrickInv_of_eq rfl rfl h

theorem PowerKeeps_refl (g : Game) : PowerKeeps g g := ⟨rfl, rfl, rfl, rfl, rfl, rfl, rfl⟩

theorem PowerKeeps_trans {a b c : Game} (h1 : PowerKeeps a b) (h2 : PowerKeeps b c) :
    PowerKeeps a c := by
  obtain ⟨a1, a2, a3, a4, a5, a6, a7⟩ := h1
  obtain ⟨b1, b2, b3, b4, b5, b6, b7⟩ := h2
  exact ⟨b1.trans a1, b2.trans a2, b3.trans a3, b4.trans a4, b5.trans a5, b6.trans a6,
    b7.trans a7⟩

theorem ApplyPower_keeps (lib : Lib) (inp : Input) (g : Game) (p : Fin MAX_POWERUPS) :
    PowerKeeps g (ApplyPower lib inp g p) := by
  unfold ApplyPower
  dsimp only
  split_ifs <;> exact ⟨rfl, rfl, rfl, rfl, rfl, rfl, rfl⟩

theorem UpdatePowerup_keeps (lib : Lib) (inp : Input) (st : Bool) (g : Game)
    (p : Fin MAX_POWERUPS) : PowerKeeps g (UpdatePowerup lib inp st g p) := by
  unfold UpdatePowerup
  dsimp only
  split_ifs
  all_goals first
    | exact ⟨rfl, rfl, rfl, rfl, rfl, rfl, rfl⟩
    | exact PowerKeeps_trans ⟨rfl, rfl, rfl, rfl, rfl, rfl, rfl⟩ (ApplyPower_keeps lib inp _ p)

theorem PowerupLoop_keeps (lib : Lib) (inp : Input) (st : Bool) (idxs : List (Fin MAX_POWERUPS))
    (g : Game) : PowerKeeps g (PowerupLoop lib inp st idxs g) := by
  induction idxs generalizing g with
  | nil => exact PowerKeeps_refl g
  | cons p rest ih =>
    unfold PowerupLoop
    rw [List.foldl_cons]
    exact PowerKeeps_trans (UpdatePowerup_keeps lib inp st g p) (ih _)

theorem BallLoss_bricks (g : Game) :
    (BallLoss g).bricks = g.bricks ∧ (BallLoss g).breakable_left = g.breakable_left ∧
      (BallLoss g).score = g.score := by
  unfold BallLoss
  dsimp only
  split_ifs <;> exact ⟨rfl, rfl, rfl⟩

theorem SpeedTimer_bricks (dt : ℚ) (g : Game) :
    (SpeedTimer dt g).bricks = g.bricks ∧ (SpeedTimer dt g).breakable_left = g.breakable_left ∧
      (SpeedTimer dt g).score = g.score ∧ (SpeedTimer dt g).combo = g.combo ∧
      (SpeedTimer dt g).paddle = g.paddle ∧
      (SpeedTimer dt g).paddle_target_w = g.paddle_target_w := by
  unfold SpeedTimer
  dsimp only
  split_ifs <;> exact ⟨rfl, rfl, rfl, rfl, rfl, rfl⟩

theorem ClearCheck_bricks (g : Game) :
    (ClearCheck g).bricks = g.bricks ∧ (ClearCheck g).breakable_left = g.breakable_left ∧
      (ClearCheck g).score = g.score ∧ (ClearCheck g).combo = g.combo ∧
      (ClearCheck g).paddle = g.paddle ∧
      (ClearCheck g).paddle_target_w = g.paddle_target_w := by
  unfold ClearCheck
  split_ifs <;> exact ⟨rfl, rfl, rfl, rfl, rfl, rfl⟩

theorem PlayFrame_inv (lib : Lib) (inp : Input) (g : Game) (h : BrickInv g) :
    BrickInv (PlayFrame lib inp g) := by
  unfold PlayFrame
  dsimp only
  have h4 := PlayBalls_inv lib inp g h
  have h5 : BrickInv (BallLoss (PlayBalls lib inp g)) :=
    BrickInv_of_eq (BallLoss_bricks _).1 (BallLoss_bricks _).2.1 h4
  have k := PowerupLoop_keeps lib inp (AnyStuck g.balls) (List.finRange MAX_POWERUPS)
    (BallLoss (PlayBalls lib inp g))
  have h6 := BrickInv_of_eq k.1 k.2.1 h5
  have h7 := BrickInv_of_eq (SpeedTimer_bricks inp.dt _).1 (SpeedTimer_bricks inp.dt _).2.1 h6
  exact BrickInv_of_eq (ClearCheck_bricks _).1 (ClearCheck_bricks _).2.1 h7

theorem StartGame_inv (g : Game) : BrickInv (StartGame g) :=
  InitLevel_count g.selected_level

theorem MenuClick_inv (lib : Lib) (inp : Input) (idxs : List (Fin 3)) (g : Game)
    (h : BrickInv g) : BrickInv (MenuClick lib inp idxs g) := by
  induction idxs with
  | nil => exact h
  | cons i rest ih =>
    unfold MenuClick
    split
    · exact StartGame_inv _
    · exact ih

theorem MenuFrame_inv (lib : Lib) (inp : Input) (g : Game) (h : BrickInv g) :
    BrickInv (MenuFrame lib inp g) := by
  unfold MenuFrame
  dsimp only
  split_ifs
  · exact StartGame_inv _
  · exact StartGame_inv _
  · exact MenuClick_inv lib inp _ _ (BrickInv_of_eq rfl rfl h)
  · exact BrickInv_of_eq rfl rfl h

theorem Frame_inv (lib : Lib) (inp : Input) (g : Game) (h : BrickInv g) :
    BrickInv (Frame lib inp g) := by
  unfold Frame
  split
  · exact MenuFrame_inv lib inp g h
  · split_ifs
    · exact BrickInv_of_eq rfl rfl h
    · exact h
  · split_ifs
    · exact BrickInv_of_eq rfl rfl h
    · exact h
  · split_ifs
    · exact BrickInv_of_eq rfl rfl h
    · exact h
  · exact PlayFrame_inv lib inp g h

/-- Claim C7: in every state at a frame boundary of any run (any inputs, any
frame deltas), the breakable counter equals the number of bricks that are
alive and not solid. -/
theorem C7_breakable_counter_counts_bricks (lib : Lib) (g : Game) (h : Reachable lib g) :
    g.breakable_left = CountBreakable g.bricks := by
  unfold Reachable at h
  induction h with
  | init => exact InitLevel_count 1
  | step inp g _ _ ih => exact Frame_inv lib inp g ih

/-- Witness for C7: the state after the first frame of the program, in which
Enter starts level 1. -/
theorem C7_breakable_counter_counts_bricks_witness :
    (Frame SampleLib EnterInput InitGame).breakable_left =
      CountBreakable (Frame SampleLib EnterInput InitGame).bricks :=
  C7_breakable_counter_counts_bricks SampleLib (Frame SampleLib EnterInput InitGame)
    (ReachableVia.step EnterInput InitGame trivial ReachableVia.init)

/-! ## Combo and score -/

theorem BeforeBricks_fields (lib : Lib) (dt cs : ℚ) (g : Game) (i : Fin MAX_BALLS) :
    (BeforeBricks lib dt cs g i).bricks = g.bricks ∧
    (BeforeBricks lib dt cs g i).breakable_left = g.breakable_left ∧
    (BeforeBricks lib dt cs g i).score = g.score ∧
    (BeforeBricks lib dt cs g i).combo =
      if PaddleHit lib g.paddle (MoveBall dt cs (g.balls i)) then 0 else g.combo := by
  unfold BeforeBricks PaddleBounce
  dsimp only
  rw [Function.update_same]
  split_ifs <;> exact ⟨rfl, rfl, rfl, rfl⟩

theorem UpdateBall_outcome (lib : Lib) (dt cs : ℚ) (g : Game) (i : Fin MAX_BALLS) :
    (PaddleBounced lib dt cs g i = false ∧
      (UpdateBall lib dt cs g i).bricks = g.bricks ∧
      (UpdateBall lib dt cs g i).breakable_left = g.breakable_left ∧
      (UpdateBall lib dt cs g i).score = g.score ∧
      (UpdateBall lib dt cs g i).combo = g.combo) ∨
    ((UpdateBall lib dt cs g i).bricks = g.bricks ∧
      (UpdateBall lib dt cs g i).breakable_left = g.breakable_left ∧
      (UpdateBall lib dt cs g i).score = g.score ∧
      (UpdateBall lib dt cs g i).combo = if PaddleBounced lib dt cs g i then 0 else g.combo) ∨
    (∃ b, FirstOverlap lib (BeforeBricks lib dt cs g i) i b ∧
      (BeforeBricks lib dt cs g i).combo = (if PaddleBounced lib dt cs g i then 0 else g.combo) ∧
      (UpdateBall lib dt cs g i).bricks = (HitBrick lib (BeforeBricks lib dt cs g i) i b).bricks ∧
      (UpdateBall lib dt cs g i).breakable_left =
        (HitBrick lib (BeforeBricks lib dt cs g i) i b).breakable_left ∧
      (UpdateBall lib dt cs g i).score = (HitBrick lib (BeforeBricks lib dt cs g i) i b).score ∧
      (UpdateBall lib dt cs g i).combo = (HitBrick lib (BeforeBricks lib dt cs g i) i b).combo) := by
  cases hact : (g.balls i).active
  · left
    have e : UpdateBall lib dt cs g i = g := by
      unfold UpdateBall
      simp [hact]
    rw [e]
    exact ⟨by simp [PaddleBounced, hact], rfl, rfl, rfl, rfl⟩
  · cases hst : (g.balls i).stuck
    · have hpb : PaddleBounced lib dt cs g i =
          PaddleHit lib g.paddle (MoveBall dt cs (g.balls i)) := by
        simp [PaddleBounced, hact, hst]
      obtain ⟨f1, f2, f3, f4⟩ := BeforeBricks_fields lib dt cs g i
      rw [← hpb] at f4
      rcases BrickLoop_result lib (BeforeBricks lib dt cs g i) i with ⟨_, e⟩ | ⟨b, hb, e⟩
      · right; left
        have hu := (UpdateBall_launched lib dt cs g i hact hst).2 (by rw [e])
        rw [e] at hu
        rw [hu]
        exact ⟨f1, f2, f3, f4⟩
      · right; right
        have hu := (UpdateBall_launched lib dt cs g i hact hst).1 (by rw [e])
        rw [e] at hu
        refine ⟨b, hb, f4, ?_, ?_, ?_, ?_⟩ <;> rw [hu]
    · left
      have e : UpdateBall lib dt cs g i =
          { g with
            balls := Function.update g.balls i
              { g.balls i with
                pos := ⟨g.paddle.x + g.paddle.width * 0.5, g.paddle.y - (g.balls i).radius - 2⟩ } } := by
        unfold UpdateBall
        simp [hact, hst]
      rw [e]
      exact ⟨by simp [PaddleBounced, hact, hst], rfl, rfl, rfl, rfl⟩

theorem UpdateBall_account (lib : Lib) (dt cs : ℚ) (g : Game) (i : Fin MAX_BALLS) :
    (UpdateBall lib dt cs g i).combo =
      (if PaddleBounced lib dt cs g i then 0 else g.combo) +
        (CountBreakable g.bricks - CountBreakable (UpdateBall lib dt cs g i).bricks) ∧
    (CountBreakable g.bricks - CountBreakable (UpdateBall lib dt cs g i).bricks = 0 ∨
      CountBreakable g.bricks - CountBreakable (UpdateBall lib dt cs g i).bricks = 1) ∧
    (0 ≤ g.combo → g.score ≤ (UpdateBall lib dt cs g i).score) := by
  rcases UpdateBall_outcome lib dt cs g i with
    ⟨hp, e1, _, e3, e4⟩ | ⟨e1, _, e3, e4⟩ | ⟨b, hb, hc, e1, _, e3, e4⟩
  · rw [e1, e3, e4, hp]
    simp
  · rw [e1, e3, e4]
    simp
  · obtain ⟨f1, _, f3, _⟩ := BeforeBricks_fields lib dt cs g i
    have halive : (g.bricks b).alive = true := by
      have := hb.1.1
      rwa [f1] at this
    have hc0 : 0 ≤ g.combo → 0 ≤ (BeforeBricks lib dt cs g i).combo := by
      intro h
      rw [hc]
      split_ifs
      · exact le_refl 0
      · exact h
    rw [e1, e3, e4]
    rcases HitBrick_cases lib (BeforeBricks lib dt cs g i) i b with
      ⟨_, k1, _, k3, k4⟩ | ⟨s, _, k1, _, k3, k4⟩ | ⟨_, _, k1, _, k3, k4⟩
    · rw [k1, k3, k4, f1, f3, hc]
      simp
    · rw [f1] at s k1
      rw [k1, k3, k4, f3, hc, CountBreakable_update_kill g.bricks b _ halive s rfl]
      refine ⟨by ring, Or.inr (by ring), ?_⟩
      intro h
      have := hc0 h
      rw [hc] at this
      linarith
    · rw [f1] at k1
      rw [k1, k3, k4, f3, hc, CountBreakable_update_same g.bricks b
        { g.bricks b with hp := (g.bricks b).hp - 1 } rfl rfl]
      simp

theorem Tally_of_eq {c0 s0 : Int} {g g' : Game} (h1 : g'.combo = g.combo)
    (h2 : g'.score = g.score) (h3 : g'.bricks = g.bricks) (h : Tally c0 s0 g) :
    Tally c0 s0 g' := by
  unfold Tally at h ⊢
  rw [h1, h2, h3]; exact h

theorem UpdateBall_tally (lib : Lib) (dt cs : ℚ) (c0 s0 : Int) (g : Game) (i : Fin MAX_BALLS)
    (h : Tally c0 s0 g) : Tally c0 s0 (UpdateBall lib dt cs g i) := by
  obtain ⟨hc, hs, hb⟩ := h
  obtain ⟨a1, a2, a3⟩ := UpdateBall_account lib dt cs g i
  have hbase : 0 ≤ (if PaddleBounced lib dt cs g i then 0 else g.combo) ∧
      (if PaddleBounced lib dt cs g i then 0 else g.combo) ≤ g.combo := by
    split_ifs
    · exact ⟨le_refl 0, hc⟩
    · exact ⟨hc, le_refl _⟩
  refine ⟨?_, le_trans hs (a3 hc), ?_⟩
  · rw [a1]
    rcases a2 with d | d <;> rw [d] <;> linarith [hbase.1]
  · rw [a1]
    linarith [hbase.2]

theorem BallLoop_tally (lib : Lib) (dt cs : ℚ) (c0 s0 : Int) (idxs : List (Fin MAX_BALLS))
    (g : Game) (h : Tally c0 s0 g) : Tally c0 s0 (idxs.foldl (UpdateBall lib dt cs) g) := by
  induction idxs generalizing g with
  | nil => exact h
  | cons i rest ih =>
    rw [List.foldl_cons]
    exact ih _ (UpdateBall_tally lib dt cs c0 s0 g i h)

theorem PlayBalls_tally (lib : Lib) (inp : Input) (c0 s0 : Int) (g : Game)
    (h : Tally c0 s0 g) : Tally c0 s0 (PlayBalls lib inp g) := by
  unfold PlayBalls
  dsimp only
  apply BallLoop_tally
  unfold UpdatePaddle LaunchStuck
  dsimp only
  split_ifs <;> exact Tally_of_eq rfl rfl rfl h

theorem BallLoss_combo (g : Game) :
    (AnyBall g.balls = false → (BallLoss g).combo = 0) ∧
      ((BallLoss g).combo = g.combo ∨ (BallLoss g).combo = 0) := by
  unfold BallLoss
  dsimp only
  split_ifs with h1 h2
  · exact ⟨fun _ => rfl, Or.inr rfl⟩
  · exact ⟨fun _ => rfl, Or.inr rfl⟩
  · refine ⟨fun h => ?_, Or.inl rfl⟩
    rw [h] at h1
    exact absurd rfl h1

theorem BallLoss_tally (c0 s0 : Int) (g : Game) (h : Tally c0 s0 g) :
    Tally c0 s0 (BallLoss g) := by
  obtain ⟨hc, hs, hb⟩ := h
  obtain ⟨b1, _, b3⟩ := BallLoss_bricks g
  unfold Tally
  rw [b1, b3]
  rcases (BallLoss_combo g).2 with e | e <;> rw [e]
  · exact ⟨hc, hs, hb⟩
  · exact ⟨le_refl 0, hs, by linarith⟩

theorem PlayFrame_after_loss (lib : Lib) (inp : Input) (g : Game) :
    (PlayFrame lib inp g).combo = (BallLoss (PlayBalls lib inp g)).combo ∧
    (PlayFrame lib inp g).score = (BallLoss (PlayBalls lib inp g)).score ∧
    (PlayFrame lib inp g).bricks = (BallLoss (PlayBalls lib inp g)).bricks := by
  have k := PowerupLoop_keeps lib inp (AnyStuck g.balls) (List.finRange MAX_POWERUPS)
    (BallLoss (PlayBalls lib inp g))
  obtain ⟨s1, _, s3, s4, _⟩ := SpeedTimer_bricks inp.dt
    (PowerupLoop lib inp (AnyStuck g.balls) (List.finRange MAX_POWERUPS)
      (BallLoss (PlayBalls lib inp g)))
  obtain ⟨c1, _, c3, c4, _⟩ := ClearCheck_bricks (SpeedTimer inp.dt
    (PowerupLoop lib inp (AnyStuck g.balls) (List.finRange MAX_POWERUPS)
      (BallLoss (PlayBalls lib inp g))))
  unfold PlayFrame
  dsimp only
  exact ⟨c4.trans (s4.trans k.2.2.2.1), c3.trans (s3.trans k.2.2.1), c1.trans (s1.trans k.1)⟩

theorem PlayFrame_tally (lib : Lib) (inp : Input) (c0 s0 : Int) (g : Game)
    (h : Tally c0 s0 g) : Tally c0 s0 (PlayFrame lib inp g) := by
  obtain ⟨e1, e2, e3⟩ := PlayFrame_after_loss lib inp g
  exact Tally_of_eq e1 e2 e3 (BallLoss_tally c0 s0 _ (PlayBalls_tally lib inp c0 s0 g h))

theorem MenuClick_cases (lib : Lib) (inp : Input) (idxs : List (Fin 3)) (g : Game) :
    (idxs.any (fun i => lib.CheckCollisionPointRec inp.mouse (MenuButtons i)) = false ∧
      MenuClick lib inp idxs g = g) ∨
    (idxs.any (fun i => lib.CheckCollisionPointRec inp.mouse (MenuButtons i)) = true ∧
      ∃ g2, MenuClick lib inp idxs g = StartGame g2) := by
  induction idxs with
  | nil => left; exact ⟨rfl, rfl⟩
  | cons i rest ih =>
    unfold MenuClick
    rw [List.any_cons]
    cases hh : lib.CheckCollisionPointRec inp.mouse (MenuButtons i)
    · simpa using ih
    · right
      exact ⟨by simp, _, by simp; rfl⟩

theorem MenuFrame_cases (lib : Lib) (inp : Input) (g : Game) :
    ((inp.key_enter || (inp.mouse_left &&
        (List.finRange 3).any (fun i => lib.CheckCollisionPointRec inp.mouse (MenuButtons i))))
        = false ∧
      MenuFrame lib inp g = { g with selected_level := MenuSelect inp g.selected_level }) ∨
    ((inp.key_enter || (inp.mouse_left &&
        (List.finRange 3).any (fun i => lib.CheckCollisionPointRec inp.mouse (MenuButtons i))))
        = true ∧
      ∃ g2, MenuFrame lib inp g = StartGame g2) := by
  unfold MenuFrame
  dsimp only
  cases he : inp.key_enter
  · cases hm : inp.mouse_left
    · left
      simp
    · rcases MenuClick_cases lib inp (List.finRange 3)
        { g with selected_level := MenuSelect inp g.selected_level } with ⟨a, e⟩ | ⟨a, g2, e⟩
      · left
        rw [a]
        simp [e]
      · right
        rw [a]
        exact ⟨by simp, g2, by simp [e]⟩
  · right
    exact ⟨by simp, _, by simp; rfl⟩

theorem Frame_tally (lib : Lib) (inp : Input) (g : Game) (hc : 0 ≤ g.combo) :
    0 ≤ (Frame lib inp g).combo ∧
    (StartsGame lib inp g = true → (Frame lib inp g).score = 0) ∧
    (StartsGame lib inp g = false → g.score ≤ (Frame lib inp g).score) ∧
    (g.state = GameState.STATE_PLAY →
      (Frame lib inp g).combo ≤
        g.combo + (CountBreakable g.bricks - CountBreakable (Frame lib inp g).bricks)) ∧
    (g.state ≠ GameState.STATE_PLAY →
      (Frame lib inp g).combo = g.combo ∨ (Frame lib inp g).combo = 0) := by
  cases hs : g.state
  · have e : Frame lib inp g = MenuFrame lib inp g := by simp only [Frame, hs]
    rw [e]
    rcases MenuFrame_cases lib inp g with ⟨a, e2⟩ | ⟨a, g2, e2⟩
    · have hst : StartsGame lib inp g = false := by simp [StartsGame, hs, a]
      rw [e2, hst]
      exact ⟨hc, fun h => absurd h (by decide), fun _ => le_refl _,
        fun h => absurd h (by decide), fun _ => Or.inl rfl⟩
    · have hst : StartsGame lib inp g = true := by simp [StartsGame, hs, a]
      rw [e2, hst]
      exact ⟨le_refl 0, fun _ => rfl, fun h => absurd h (by decide),
        fun h => absurd h (by decide), fun _ => Or.inr rfl⟩
  · have e : Frame lib inp g = PlayFrame lib inp g := by simp only [Frame, hs]
    have hst : StartsGame lib inp g = false := by simp [StartsGame, hs]
    have ht := PlayFrame_tally lib inp (g.combo + CountBreakable g.bricks) g.score g
      ⟨hc, le_refl _, le_refl _⟩
    rw [e, hst]
    obtain ⟨t1, t2, t3⟩ := ht
    exact ⟨t1, fun h => absurd h (by decide), fun _ => t2, fun _ => by linarith,
      fun h => absurd rfl h⟩
  all_goals
    have hst : StartsGame lib inp g = false := by simp [StartsGame, hs]
    rw [hst]
    simp only [Frame, hs]
    split_ifs <;>
      exact ⟨hc, fun h => absurd h (by decide), fun _ => le_refl _,
        fun h => absurd h (by decide), fun _ => Or.inl rfl⟩

theorem Reachable_combo_nonneg (lib : Lib) (g : Game) (h : Reachable lib g) : 0 ≤ g.combo := by
  unfold Reachable at h
  induction h with
  | init => exact le_refl 0
  | step inp g _ _ ih => exact (Frame_tally lib inp g ih).1

/-- Claim C8: (1) a paddle bounce of a ball sets combo to 0; (2) combo is 0 at
the end of every Play frame in which no ball is active after the ball loop;
(3) in the loop body of one ball, combo becomes its value after the paddle
step (0 if the ball bounced off the paddle, unchanged otherwise) plus the
number of alive non-solid bricks the ball destroyed, which is 0 or 1, so wall
bounces and contacts that destroy nothing do not change it; (4) resolving a
solid brick leaves combo unchanged; (5) over a whole Play frame that starts
with combo not negative, combo grows by at most the number of non-solid bricks
destroyed in the frame; (6) a frame in another state leaves combo unchanged or
sets it to 0. -/
theorem C8_combo_rules (lib : Lib) (inp : Input) (dt cs : ℚ) (g : Game) (i : Fin MAX_BALLS)
    (b : Fin MAX_BRICKS) :
    (PaddleHit lib g.paddle (g.balls i) = true → (PaddleBounce lib g i).combo = 0) ∧
    (g.state = GameState.STATE_PLAY → AnyBall (PlayBalls lib inp g).balls = false →
      (Frame lib inp g).combo = 0) ∧
    ((UpdateBall lib dt cs g i).combo =
        (if PaddleBounced lib dt cs g i then 0 else g.combo) +
          (CountBreakable g.bricks - CountBreakable (UpdateBall lib dt cs g i).bricks) ∧
      (CountBreakable g.bricks - CountBreakable (UpdateBall lib dt cs g i).bricks = 0 ∨
        CountBreakable g.bricks - CountBreakable (UpdateBall lib dt cs g i).bricks = 1)) ∧
    ((g.bricks b).solid = true → (HitBrick lib g i b).combo = g.combo) ∧
    (0 ≤ g.combo → g.state = GameState.STATE_PLAY →
      (Frame lib inp g).combo ≤
        g.combo + (CountBreakable g.bricks - CountBreakable (Frame lib inp g).bricks)) ∧
    (g.state ≠ GameState.STATE_PLAY →
      (Frame lib inp g).combo = g.combo ∨ (Frame lib inp g).combo = 0) := by
  refine ⟨?_, ?_, ?_, ?_, ?_, ?_⟩
  · intro h
    unfold PaddleBounce
    dsimp only
    rw [if_pos h]
  · intro hs hno
    have e : Frame lib inp g = PlayFrame lib inp g := by simp only [Frame, hs]
    rw [e, (PlayFrame_after_loss lib inp g).1]
    exact (BallLoss_combo _).1 hno
  · exact ⟨(UpdateBall_account lib dt cs g i).1, (UpdateBall_account lib dt cs g i).2.1⟩
  · intro hsolid
    rcases HitBrick_cases lib g i b with ⟨_, _, _, e, _⟩ | ⟨s, _⟩ | ⟨s, _⟩
    · exact e
    · rw [hsolid] at s; exact absurd s (by decide)
    · rw [hsolid] at s; exact absurd s (by decide)
  · intro hc hs
    exact (Frame_tally lib inp g hc).2.2.2.1 hs
  · intro hs
    cases hst : g.state
    · have e : Frame lib inp g = MenuFrame lib inp g := by simp only [Frame, hst]
      rw [e]
      rcases MenuFrame_cases lib inp g with ⟨_, e2⟩ | ⟨_, g2, e2⟩
      · rw [e2]; exact Or.inl rfl
      · rw [e2]; exact Or.inr rfl
    · exact absurd hst hs
    all_goals
      simp only [Frame, hst]
      split_ifs <;> exact Or.inl rfl

/-- Witness for C8: a ball that comes down onto the paddle with combo 3
leaves the paddle step with combo 0. -/
theorem C8_combo_rules_witness : (PaddleBounce SampleLib OverPaddleGame 0).combo = 0 :=
  (C8_combo_rules SampleLib IdleInput (1 / 60) (CurrentSpeed OverPaddleGame) OverPaddleGame 0
    ⟨0, by decide⟩).1 (by decide!)

/-- Claim C9: in every state at a frame boundary of any run (score and combo
unbounded integers), combo is not negative, so an award 100 + 30 * combo is
positive; a Menu frame that starts a new game sets the score to 0, and every
other frame ends with a score greater than or equal to the score at its
start. -/
theorem C9_score_monotone (lib : Lib) (inp : Input) (g : Game) (h : Reachable lib g) :
    0 ≤ g.combo ∧ 0 < 100 + 30 * g.combo ∧
    (StartsGame lib inp g = true → (Frame lib inp g).score = 0) ∧
    (StartsGame lib inp g = false → g.score ≤ (Frame lib inp g).score) := by
  have hc := Reachable_combo_nonneg lib g h
  obtain ⟨_, t2, t3, _⟩ := Frame_tally lib inp g hc
  exact ⟨hc, by linarith, t2, t3⟩

/-- Witness for C9: the second frame of a run whose first frame starts
level 1. -/
theorem C9_score_monotone_witness :
    (Frame SampleLib EnterInput InitGame).score ≤
      (Frame SampleLib IdleInput (Frame SampleLib EnterInput InitGame)).score :=
  (C9_score_monotone SampleLib IdleInput (Frame SampleLib EnterInput InitGame)
    (ReachableVia.step EnterInput InitGame trivial ReachableVia.init)).2.2.2 (by decide!)

/-! ## The paddle -/

theorem ClampFloat_bounds (v lo hi : ℚ) (h : lo ≤ hi) :
    lo ≤ ClampFloat v lo hi ∧ ClampFloat v lo hi ≤ hi := by
  unfold ClampFloat
  split_ifs with h1 h2
  · exact ⟨le_refl _, h⟩
  · exact ⟨h, le_refl _⟩
  · exact ⟨not_lt.mp h1, not_lt.mp h2⟩

theorem PaddleInv_of_eq {g g' : Game} (h1 : g'.paddle = g.paddle)
    (h2 : g'.paddle_target_w = g.paddle_target_w) (h : PaddleInv g) : PaddleInv g' := by
  unfold PaddleInv at h ⊢
  rw [h1, h2]; exact h

theorem PaddleInv_reset (g : Game) (hw : g.paddle.width = BASE_PADDLE_W)
    (ht : g.paddle_target_w = BASE_PADDLE_W)
    (hx : g.paddle.x = PLAY_X + PLAY_W * 0.5 - BASE_PADDLE_W * 0.5) : PaddleInv g := by
  unfold PaddleInv
  rw [hw, ht, hx]
  norm_num [BASE_PADDLE_W, PLAY_X, PLAY_W]

theorem UpdatePaddle_inv (inp : Input) (g : Game) (hdt : ShortFrame inp) (h : PaddleInv g) :
    PaddleInv (UpdatePaddle inp g) := by
  obtain ⟨h1, h2, h3, _, _⟩ := h
  obtain ⟨d0, d1⟩ := hdt
  have h0 : 0 ≤ g.paddle_target_w - g.paddle.width := sub_nonneg.mpr h2
  have h8 : 0 ≤ 8 * inp.dt ∧ 8 * inp.dt ≤ 1 := ⟨by linarith, by linarith⟩
  have hmul : (g.paddle_target_w - g.paddle.width) * 8 * inp.dt =
      (g.paddle_target_w - g.paddle.width) * (8 * inp.dt) := by ring
  have hgrow : 0 ≤ (g.paddle_target_w - g.paddle.width) * 8 * inp.dt := by
    rw [hmul]; exact mul_nonneg h0 h8.1
  have hcap : (g.paddle_target_w - g.paddle.width) * 8 * inp.dt ≤
      g.paddle_target_w - g.paddle.width := by
    rw [hmul]
    calc (g.paddle_target_w - g.paddle.width) * (8 * inp.dt)
        ≤ (g.paddle_target_w - g.paddle.width) * 1 := mul_le_mul_of_nonneg_left h8.2 h0
      _ = g.paddle_target_w - g.paddle.width := mul_one _
  have hw1 : BASE_PADDLE_W ≤
      g.paddle.width + (g.paddle_target_w - g.paddle.width) * 8 * inp.dt := by linarith
  have hw2 : g.paddle.width + (g.paddle_target_w - g.paddle.width) * 8 * inp.dt ≤
      g.paddle_target_w := by linarith
  have hwide : BASE_PADDLE_W * 1.6 ≤ PLAY_W := by norm_num [BASE_PADDLE_W, PLAY_W]
  have hroom : PLAY_X ≤ PLAY_X + PLAY_W -
      (g.paddle.width + (g.paddle_target_w - g.paddle.width) * 8 * inp.dt) := by linarith
  exact ⟨hw1, hw2, h3, (ClampFloat_bounds _ _ _ hroom).1, (ClampFloat_bounds _ _ _ hroom).2⟩

theorem PlayBalls_paddle_eq (lib : Lib) (inp : Input) (g : Game) :
    (PlayBalls lib inp g).paddle =
      (if AnyStuck g.balls then g.paddle else (UpdatePaddle inp g).paddle) ∧
    (PlayBalls lib inp g).paddle_target_w = g.paddle_target_w := by
  unfold PlayBalls
  dsimp only
  rw [(BallLoop_keeps lib inp.dt _ _ _).2.2.2.2.1, (BallLoop_keeps lib inp.dt _ _ _).2.2.2.2.2.1]
  cases hp : inp.key_p <;> cases hsp : inp.key_space <;> cases hst : AnyStuck g.balls <;>
    simp [hst, UpdatePaddle, LaunchStuck]

theorem PlayBalls_paddle (lib : Lib) (inp : Input) (g : Game) (hdt : ShortFrame inp)
    (h : PaddleInv g) : PaddleInv (PlayBalls lib inp g) := by
  obtain ⟨e1, e2⟩ := PlayBalls_paddle_eq lib inp g
  cases hst : AnyStuck g.balls
  · rw [hst] at e1
    exact PaddleInv_of_eq (g := UpdatePaddle inp g) e1 e2 (UpdatePaddle_inv inp g hdt h)
  · rw [hst] at e1
    exact PaddleInv_of_eq e1 e2 h

theorem BallLoss_paddle (g : Game) (h : PaddleInv g) : PaddleInv (BallLoss g) := by
  unfold BallLoss
  dsimp only
  split_ifs
  · exact PaddleInv_of_eq rfl rfl h
  · exact PaddleInv_reset _ rfl rfl rfl
  · exact h

theorem ApplyPower_target (lib : Lib) (inp : Input) (g : Game) (p : Fin MAX_POWERUPS) :
    (ApplyPower lib inp g p).paddle_target_w = g.paddle_target_w ∨
      (ApplyPower lib inp g p).paddle_target_w = BASE_PADDLE_W * 1.6 := by
  unfold ApplyPower
  dsimp only
  split_ifs
  all_goals first
    | exact Or.inl rfl
    | exact Or.inr rfl

theorem UpdatePowerup_paddle (lib : Lib) (inp : Input) (st : Bool) (g : Game)
    (p : Fin MAX_POWERUPS) (h : PaddleInv g) : PaddleInv (UpdatePowerup lib inp st g p) := by
  have hk := (UpdatePowerup_keeps lib inp st g p).2.2.2.2.2.2
  have ht : (UpdatePowerup lib inp st g p).paddle_target_w = g.paddle_target_w ∨
      (UpdatePowerup lib inp st g p).paddle_target_w = BASE_PADDLE_W * 1.6 := by
    unfold UpdatePowerup
    dsimp only
    split_ifs
    all_goals first
      | exact Or.inl rfl
      | exact ApplyPower_target lib inp _ p
  obtain ⟨h1, h2, h3, h4, h5⟩ := h
  unfold PaddleInv
  rw [hk]
  rcases ht with e | e <;> rw [e]
  · exact ⟨h1, h2, h3, h4, h5⟩
  · exact ⟨h1, le_trans h2 h3, le_refl _, h4, h5⟩

theorem PowerupLoop_paddle (lib : Lib) (inp : Input) (st : Bool)
    (idxs : List (Fin MAX_POWERUPS)) (g : Game) (h : PaddleInv g) :
    PaddleInv (PowerupLoop lib inp st idxs g) := by
  induction idxs generalizing g with
  | nil => exact h
  | cons p rest ih =>
    unfold PowerupLoop
    rw [List.foldl_cons]
    exact ih _ (UpdatePowerup_paddle lib inp st g p h)

theorem PlayFrame_paddle (lib : Lib) (inp : Input) (g : Game) (hdt : ShortFrame inp)
    (h : PaddleInv g) : PaddleInv (PlayFrame lib inp g) := by
  unfold PlayFrame
  dsimp only
  have h6 := PowerupLoop_paddle lib inp (AnyStuck g.balls) (List.finRange MAX_POWERUPS) _
    (BallLoss_paddle _ (PlayBalls_paddle lib inp g hdt h))
  have s := SpeedTimer_bricks inp.dt (PowerupLoop lib inp (AnyStuck g.balls)
    (List.finRange MAX_POWERUPS) (BallLoss (PlayBalls lib inp g)))
  have c := ClearCheck_bricks (SpeedTimer inp.dt (PowerupLoop lib inp (AnyStuck g.balls)
    (List.finRange MAX_POWERUPS) (BallLoss (PlayBalls lib inp g))))
  exact PaddleInv_of_eq c.2.2.2.2.1 c.2.2.2.2.2 (PaddleInv_of_eq s.2.2.2.2.1 s.2.2.2.2.2 h6)

theorem Frame_paddle (lib : Lib) (inp : Input) (g : Game) (hdt : ShortFrame inp)
    (h : PaddleInv g) : PaddleInv (Frame lib inp g) := by
  cases hs : g.state
  · have e : Frame lib inp g = MenuFrame lib inp g := by simp only [Frame, hs]
    rw [e]
    rcases MenuFrame_cases lib inp g with ⟨_, e2⟩ | ⟨_, g2, e2⟩
    · rw [e2]; exact PaddleInv_of_eq rfl rfl h
    · rw [e2]; exact PaddleInv_reset _ rfl rfl rfl
  · have e : Frame lib inp g = PlayFrame lib inp g := by simp only [Frame, hs]
    rw [e]
    exact PlayFrame_paddle lib inp g hdt h
  all_goals
    simp only [Frame, hs]
    split_ifs
    · exact PaddleInv_of_eq rfl rfl h
    · exact h

theorem Reachable_paddle (lib : Lib) (g : Game) (h : ReachableVia lib ShortFrame g) :
    PaddleInv g := by
  induction h with
  | init => exact PaddleInv_reset _ rfl rfl rfl
  | step inp g hdt _ ih => exact Frame_paddle lib inp g hdt ih

/-- Claim C10: in every state at a frame boundary of a run whose frame deltas
all lie between 0 and 1/8 second (any inputs, any power-ups), the paddle
satisfies PLAY_X <= paddle.x <= PLAY_X + PLAY_W - paddle.width; on the way the
width stays between the base width 120 and the target width, which is at most
192. -/
theorem C10_paddle_stays_in_field (lib : Lib) (g : Game)
    (h : ReachableVia lib ShortFrame g) :
    PLAY_X ≤ g.paddle.x ∧ g.paddle.x ≤ PLAY_X + PLAY_W - g.paddle.width ∧
    120 ≤ g.paddle.width ∧ g.paddle.width ≤ g.paddle_target_w ∧ g.paddle_target_w ≤ 192 := by
  obtain ⟨h1, h2, h3, h4, h5⟩ := Reachable_paddle lib g h
  refine ⟨h4, h5, ?_, h2, ?_⟩
  · have : BASE_PADDLE_W = 120 := rfl
    rw [← this]; exact h1
  · have : BASE_PADDLE_W * 1.6 = 192 := by norm_num [BASE_PADDLE_W]
    rw [← this]; exact h3

/-- Witness for C10: the state after a frame that starts level 1 and one idle
frame of 1/60 second. -/
theorem C10_paddle_stays_in_field_witness :
    PLAY_X ≤ (Frame SampleLib IdleInput (Frame SampleLib EnterInput InitGame)).paddle.x ∧
    (Frame SampleLib IdleInput (Frame SampleLib EnterInput InitGame)).paddle.x ≤
      PLAY_X + PLAY_W -
        (Frame SampleLib IdleInput (Frame SampleLib EnterInput InitGame)).paddle.width :=
  have h := C10_paddle_stays_in_field SampleLib
    (Frame SampleLib IdleInput (Frame SampleLib EnterInput InitGame))
    (ReachableVia.step IdleInput _ (by norm_num [ShortFrame, IdleInput])
      (ReachableVia.step EnterInput InitGame (by norm_num [ShortFrame, EnterInput, IdleInput])
        ReachableVia.init))
  ⟨h.1, h.2.1⟩

/-! ## Collected power-ups -/

theorem UpdatePowerup_collects (lib : Lib) (inp : Input) (st : Bool) (g : Game)
    (p : Fin MAX_POWERUPS) (h : Collects lib inp st g p = true) :
    UpdatePowerup lib inp st g p = ApplyPower lib inp (Collected inp st g p) p := by
  unfold Collects at h
  simp only [Bool.and_eq_true, Bool.not_eq_true', decide_eq_false_iff_not] at h
  obtain ⟨⟨h1, h2⟩, h3⟩ := h
  unfold UpdatePowerup Collected
  unfold MovedPowerup at h2 h3 ⊢
  dsimp only
  rw [if_neg (by simp [h1]), if_neg h2, if_pos h3]

theorem Collected_type (inp : Input) (st : Bool) (g : Game) (p : Fin MAX_POWERUPS) :
    ((Collected inp st g p).powerups p).type = (g.powerups p).type := by
  unfold Collected MovedPowerup
  dsimp only
  rw [Function.update_same]
  split_ifs <;> rfl

theorem CountActive_add_inactive (balls : Fin MAX_BALLS → Ball) :
    CountActive balls + CountInactive balls = MAX_BALLS := by
  unfold CountActive CountInactive
  have h := Finset.filter_card_add_filter_neg_card_eq_card
    (s := (Finset.univ : Finset (Fin MAX_BALLS))) (fun b => (balls b).active = true)
  simp only [Bool.not_eq_true] at h
  rw [h]
  simp

/-- Claim C11: when a MULTIBALL power-up is collected with `k` ball slots
inactive, every inactive slot becomes active and not stuck, is placed at the
paddle's horizontal centre (20 above the paddle's top), and gets the launch
velocity (cos a, -sin a) for an angle a of `r` degrees, `r` being the value
`GetRandomValue(40, 140)` returned, so 40 <= r <= 140; every ball that was
active is unchanged in all its fields; and afterwards the number of active
balls is the old number plus `k`, which is exactly MAX_BALLS = 4. -/
theorem C11_multiball_fills_inactive_slots (lib : Lib) (inp : Input) (st : Bool) (g : Game)
    (p : Fin MAX_POWERUPS) (k : Nat)
    (hc : Collects lib inp st g p = true)
    (ht : (g.powerups p).type = PowerType.POWER_MULTIBALL)
    (hr : ∀ b, 40 ≤ inp.rand_multi p b ∧ inp.rand_multi p b ≤ 140)
    (hk : CountInactive g.balls = k) :
    k ≤ MAX_BALLS ∧
    (∀ b, (g.balls b).active = false →
      ((UpdatePowerup lib inp st g p).balls b).active = true ∧
      ((UpdatePowerup lib inp st g p).balls b).stuck = false ∧
      ((UpdatePowerup lib inp st g p).balls b).pos.x = g.paddle.x + g.paddle.width / 2 ∧
      ((UpdatePowerup lib inp st g p).balls b).pos.y = g.paddle.y - 20 ∧
      ∃ r : Int, 40 ≤ r ∧ r ≤ 140 ∧
        ((UpdatePowerup lib inp st g p).balls b).vel =
          ⟨lib.cosf (r * lib.DEG2RAD), -lib.sinf (r * lib.DEG2RAD)⟩) ∧
    (∀ b, (g.balls b).active = true → (UpdatePowerup lib inp st g p).balls b = g.balls b) ∧
    CountActive (UpdatePowerup lib inp st g p).balls = CountActive g.balls + k ∧
    CountActive (UpdatePowerup lib inp st g p).balls = MAX_BALLS := by
  have hballs : (UpdatePowerup lib inp st g p).balls = fun b =>
      if !(g.balls b).active then
        LaunchBall lib (inp.rand_multi p b)
          { g.balls b with
            active := true
            stuck := false
            pos := ⟨g.paddle.x + g.paddle.width * 0.5, g.paddle.y - 20⟩ }
      else g.balls b := by
    rw [UpdatePowerup_collects lib inp st g p hc]
    unfold ApplyPower
    dsimp only
    rw [Collected_type, ht]
    simp only [reduceCtorEq, if_false, if_true]
    rfl
  have hall : ∀ b, ((UpdatePowerup lib inp st g p).balls b).active = true := by
    intro b
    rw [hballs]
    dsimp only
    cases hb : (g.balls b).active
    · rfl
    · simpa using hb
  have hcount : CountActive (UpdatePowerup lib inp st g p).balls = MAX_BALLS := by
    unfold CountActive
    rw [Finset.filter_true_of_mem (fun b _ => hall b)]
    simp
  have hsum := CountActive_add_inactive g.balls
  rw [hk] at hsum
  refine ⟨by omega, ?_, ?_, by omega, hcount⟩
  · intro b hb
    rw [hballs]
    dsimp only
    rw [hb]
    refine ⟨rfl, rfl, ?_, rfl, inp.rand_multi p b, (hr b).1, (hr b).2, rfl⟩
    show g.paddle.x + g.paddle.width * 0.5 = g.paddle.x + g.paddle.width / 2
    norm_num
    ring
  · intro b hb
    rw [hballs]
    dsimp only
    rw [hb]
    rfl

/-- Witness for C11: a MULTIBALL power-up reaches the paddle while one ball is
in play and three slots are inactive. -/
theorem C11_multiball_fills_inactive_slots_witness :
    CountActive (UpdatePowerup SampleLib IdleInput false
      (PickupGame PowerType.POWER_MULTIBALL 120 120) 0).balls = MAX_BALLS :=
  (C11_multiball_fills_inactive_slots SampleLib IdleInput false
    (PickupGame PowerType.POWER_MULTIBALL 120 120) 0 3 (by decide!) rfl
    (by intro b; norm_num [IdleInput]) (by decide!)).2.2.2.2

/-! ## The speed state and its timer -/

theorem SpeedInv_of_eq {g g' : Game} (h1 : g'.speed_state = g.speed_state)
    (h2 : g'.speed_timer = g.speed_timer) (h : SpeedInv g) : SpeedInv g' := by
  unfold SpeedInv at h ⊢
  rw [h1, h2]; exact h

theorem SpeedInv_reset (g : Game) (h : g.speed_state = 0) : SpeedInv g := by
  intro hne
  exact absurd h hne

theorem SpeedInv_set (g : Game) (h : g.speed_timer = 10) : SpeedInv g := by
  intro _
  rw [h]
  norm_num

theorem PlayBalls_speed (lib : Lib) (inp : Input) (g : Game) :
    (PlayBalls lib inp g).speed_state = g.speed_state ∧
    (PlayBalls lib inp g).speed_timer = g.speed_timer := by
  unfold PlayBalls
  dsimp only
  rw [(BallLoop_keeps lib inp.dt _ _ _).2.2.2.2.2.2.1,
    (BallLoop_keeps lib inp.dt _ _ _).2.2.2.2.2.2.2]
  cases hp : inp.key_p <;> cases hsp : inp.key_space <;> cases hst : AnyStuck g.balls <;>
    simp [hst, UpdatePaddle, LaunchStuck]

theorem BallLoss_speed (g : Game) (h : SpeedInv g) : SpeedInv (BallLoss g) := by
  unfold BallLoss
  dsimp only
  split_ifs
  · exact SpeedInv_of_eq rfl rfl h
  · exact SpeedInv_reset _ rfl
  · exact h

theorem ApplyPower_speed (lib : Lib) (inp : Input) (g : Game) (p : Fin MAX_POWERUPS)
    (h : SpeedInv g) : SpeedInv (ApplyPower lib inp g p) := by
  unfold ApplyPower
  dsimp only
  split_ifs
  all_goals first
    | exact h
    | exact SpeedInv_set _ rfl

theorem UpdatePowerup_speed (lib : Lib) (inp : Input) (st : Bool) (g : Game)
    (p : Fin MAX_POWERUPS) (h : SpeedInv g) : SpeedInv (UpdatePowerup lib inp st g p) := by
  unfold UpdatePowerup
  dsimp only
  split_ifs
  all_goals first
    | exact h
    | exact SpeedInv_of_eq rfl rfl h
    | exact ApplyPower_speed lib inp _ p (SpeedInv_of_eq rfl rfl h)

theorem PowerupLoop_speed (lib : Lib) (inp : Input) (st : Bool)
    (idxs : List (Fin MAX_POWERUPS)) (g : Game) (h : SpeedInv g) :
    SpeedInv (PowerupLoop lib inp st idxs g) := by
  induction idxs generalizing g with
  | nil => exact h
  | cons p rest ih =>
    unfold PowerupLoop
    rw [List.foldl_cons]
    exact ih _ (UpdatePowerup_speed lib inp st g p h)

theorem SpeedTimer_expire (dt : ℚ) (g : Game) (h1 : 0 < g.speed_timer)
    (h2 : g.speed_timer - dt ≤ 0) :
    (SpeedTimer dt g).speed_state = 0 ∧ (SpeedTimer dt g).speed_timer = 0 := by
  unfold SpeedTimer
  dsimp only
  rw [if_pos h1, if_pos h2]
  exact ⟨rfl, rfl⟩

theorem SpeedTimer_speed (dt : ℚ) (g : Game) (h : SpeedInv g) : SpeedInv (SpeedTimer dt g) := by
  unfold SpeedTimer
  dsimp only
  split_ifs with h1 h2
  · exact SpeedInv_reset _ rfl
  · intro _
    exact not_le.mp h2
  · exact h

theorem ClearCheck_speed (g : Game) (h : SpeedInv g) : SpeedInv (ClearCheck g) := by
  unfold ClearCheck
  split_ifs
  · exact SpeedInv_of_eq rfl rfl h
  · exact h

theorem PlayFrame_speed (lib : Lib) (inp : Input) (g : Game) (h : SpeedInv g) :
    SpeedInv (PlayFrame lib inp g) := by
  unfold PlayFrame
  dsimp only
  apply ClearCheck_speed
  apply SpeedTimer_speed
  apply PowerupLoop_speed
  apply BallLoss_speed
  exact SpeedInv_of_eq (PlayBalls_speed lib inp g).1 (PlayBalls_speed lib inp g).2 h

theorem Frame_speed (lib : Lib) (inp : Input) (g : Game) (h : SpeedInv g) :
    SpeedInv (Frame lib inp g) := by
  cases hs : g.state
  · have e : Frame lib inp g = MenuFrame lib inp g := by simp only [Frame, hs]
    rw [e]
    rcases MenuFrame_cases lib inp g with ⟨_, e2⟩ | ⟨_, g2, e2⟩
    · rw [e2]; exact SpeedInv_of_eq rfl rfl h
    · rw [e2]; exact SpeedInv_reset _ rfl
  · have e : Frame lib inp g = PlayFrame lib inp g := by simp only [Frame, hs]
    rw [e]
    exact PlayFrame_speed lib inp g h
  all_goals
    simp only [Frame, hs]
    split_ifs
    · exact SpeedInv_of_eq rfl rfl h
    · exact h

theorem Reachable_speed (lib : Lib) (ok : Input → Prop) (g : Game)
    (h : ReachableVia lib ok g) : SpeedInv g := by
  induction h with
  | init => exact SpeedInv_reset _ rfl
  | step inp g _ _ ih => exact Frame_speed lib inp g ih

/-- Claim C12: (1) in every state at a frame boundary of a run whose frame
deltas are not negative, a non-zero speed state has a positive timer; (2, 3)
collecting SLOW, or FAST, sets the speed state to -1, or +1, and the timer to
10, whatever they were in the state `g2` of the collection; (4) the timer step
of a frame whose timer is positive and drops to 0 or below clears the speed
state and the timer; (5) a Play frame that starts with a positive timer and
ends with the timer at 0 or below ends with speed state 0, for which the
speed-item multiplier is exactly 1. -/
theorem C12_speed_state_and_timer (lib : Lib) (inp : Input) (st : Bool) (g g2 : Game)
    (p : Fin MAX_POWERUPS) (h : ReachableVia lib ForwardFrame g) :
    (g.speed_state ≠ 0 → 0 < g.speed_timer) ∧
    (Collects lib inp st g2 p = true → (g2.powerups p).type = PowerType.POWER_SLOW →
      (UpdatePowerup lib inp st g2 p).speed_state = -1 ∧
      (UpdatePowerup lib inp st g2 p).speed_timer = 10) ∧
    (Collects lib inp st g2 p = true → (g2.powerups p).type = PowerType.POWER_FAST →
      (UpdatePowerup lib inp st g2 p).speed_state = 1 ∧
      (UpdatePowerup lib inp st g2 p).speed_timer = 10) ∧
    (0 < g2.speed_timer → g2.speed_timer - inp.dt ≤ 0 →
      (SpeedTimer inp.dt g2).speed_state = 0 ∧ (SpeedTimer inp.dt g2).speed_timer = 0) ∧
    (g.state = GameState.STATE_PLAY → 0 < g.speed_timer →
      (Frame lib inp g).speed_timer ≤ 0 →
      (Frame lib inp g).speed_state = 0 ∧ SpeedItemMult (Frame lib inp g).speed_state = 1) := by
  have hinv := Reachable_speed lib ForwardFrame g h
  refine ⟨hinv, ?_, ?_, SpeedTimer_expire inp.dt g2, ?_⟩
  · intro hc ht
    rw [UpdatePowerup_collects lib inp st g2 p hc]
    unfold ApplyPower
    dsimp only
    rw [Collected_type, ht]
    simp
  · intro hc ht
    rw [UpdatePowerup_collects lib inp st g2 p hc]
    unfold ApplyPower
    dsimp only
    rw [Collected_type, ht]
    simp
  · intro _ _ hend
    have hz : (Frame lib inp g).speed_state = 0 := by
      by_contra hne
      exact absurd (Frame_speed lib inp g hinv hne) (not_lt.mpr hend)
    refine ⟨hz, ?_⟩
    rw [hz]
    norm_num [SpeedItemMult]

/-- Witness for C12: a SLOW power-up reaches the paddle (the run of the first
conjunct is the first frame of the program). -/
theorem C12_speed_state_and_timer_witness :
    (UpdatePowerup SampleLib IdleInput false (PickupGame PowerType.POWER_SLOW 120 120) 0).speed_state
        = -1 ∧
    (UpdatePowerup SampleLib IdleInput false (PickupGame PowerType.POWER_SLOW 120 120) 0).speed_timer
        = 10 :=
  (C12_speed_state_and_timer SampleLib IdleInput false (Frame SampleLib EnterInput InitGame)
    (PickupGame PowerType.POWER_SLOW 120 120) 0
    (ReachableVia.step EnterInput InitGame (by norm_num [ForwardFrame, EnterInput, IdleInput])
      ReachableVia.init)).2.1 (by decide!) rfl

/-! ## The paddle update and the stuck ball -/

theorem BallLoss_paddle_cases (g : Game) :
    (BallLoss g).paddle = g.paddle ∨
      (AnyBall g.balls = false ∧ (BallLoss g).paddle.width = BASE_PADDLE_W) := by
  unfold BallLoss
  dsimp only
  split_ifs with h1 h2
  · exact Or.inl rfl
  · exact Or.inr ⟨by simpa using h1, rfl⟩
  · exact Or.inl rfl

theorem PlayFrame_paddle_eq (lib : Lib) (inp : Input) (g : Game) :
    (PlayFrame lib inp g).paddle = (BallLoss (PlayBalls lib inp g)).paddle := by
  have k := PowerupLoop_keeps lib inp (AnyStuck g.balls) (List.finRange MAX_POWERUPS)
    (BallLoss (PlayBalls lib inp g))
  have s := SpeedTimer_bricks inp.dt (PowerupLoop lib inp (AnyStuck g.balls)
    (List.finRange MAX_POWERUPS) (BallLoss (PlayBalls lib inp g)))
  have c := ClearCheck_bricks (SpeedTimer inp.dt (PowerupLoop lib inp (AnyStuck g.balls)
    (List.finRange MAX_POWERUPS) (BallLoss (PlayBalls lib inp g))))
  unfold PlayFrame
  dsimp only
  exact c.2.2.2.2.1.trans (s.2.2.2.2.1.trans k.2.2.2.2.2.2)

/-- Claim C13 (as the code has it): in a Play frame that starts with no ball
stuck, the paddle update eases the width by width += (target - width) * 8 * dt,
and the frame ends with that width unless the loss of all balls resets it to
the base width; in a Play frame that starts with a ball stuck, the whole
paddle update is skipped, so neither the movement from player input nor the
width easing is applied, and the frame ends with the paddle unchanged unless
the loss of all balls resets it. -/
theorem C13_width_eased_only_without_stuck_ball (lib : Lib) (inp : Input) (g : Game)
    (hs : g.state = GameState.STATE_PLAY) :
    (AnyStuck g.balls = false →
      (PlayBalls lib inp g).paddle.width =
        g.paddle.width + (g.paddle_target_w - g.paddle.width) * 8 * inp.dt ∧
      ((Frame lib inp g).paddle.width =
          g.paddle.width + (g.paddle_target_w - g.paddle.width) * 8 * inp.dt ∨
        (AnyBall (PlayBalls lib inp g).balls = false ∧
          (Frame lib inp g).paddle.width = BASE_PADDLE_W))) ∧
    (AnyStuck g.balls = true →
      (PlayBalls lib inp g).paddle = g.paddle ∧
      ((Frame lib inp g).paddle = g.paddle ∨
        (AnyBall (PlayBalls lib inp g).balls = false ∧
          (Frame lib inp g).paddle.width = BASE_PADDLE_W))) := by
  have e : Frame lib inp g = PlayFrame lib inp g := by simp only [Frame, hs]
  have hp := (PlayBalls_paddle_eq lib inp g).1
  rw [e, PlayFrame_paddle_eq]
  constructor
  · intro hst
    rw [hst] at hp
    have hw : (PlayBalls lib inp g).paddle.width =
        g.paddle.width + (g.paddle_target_w - g.paddle.width) * 8 * inp.dt := by
      rw [hp]; rfl
    refine ⟨hw, ?_⟩
    rcases BallLoss_paddle_cases (PlayBalls lib inp g) with h | h
    · left; rw [h]; exact hw
    · right; exact h
  · intro hst
    rw [hst] at hp
    have hw : (PlayBalls lib inp g).paddle = g.paddle := by
      rw [hp]; rfl
    refine ⟨hw, ?_⟩
    rcases BallLoss_paddle_cases (PlayBalls lib inp g) with h | h
    · left; rw [h]; exact hw
    · right; exact h

/-- Witness for C13: with no ball stuck, width 120 and target 192, a frame of
1/60 s eases the width to 129.6. -/
theorem C13_width_eased_only_without_stuck_ball_witness :
    (PlayBalls SampleLib IdleInput (PickupGame PowerType.POWER_LIFE 120 192)).paddle.width =
      (PickupGame PowerType.POWER_LIFE 120 192).paddle.width +
        ((PickupGame PowerType.POWER_LIFE 120 192).paddle_target_w -
          (PickupGame PowerType.POWER_LIFE 120 192).paddle.width) * 8 * IdleInput.dt :=
  ((C13_width_eased_only_without_stuck_ball SampleLib IdleInput
    (PickupGame PowerType.POWER_LIFE 120 192) rfl).1 (by decide!)).1

/-- Counterexample to C13 as stated: a Play frame of 1/60 s that starts with
a ball stuck, width 120 and target width 192 ends with width 120, not with
the eased width 120 + (192 - 120) * 8 / 60. -/
theorem C13_counterexample :
    StuckExtendGame.state = GameState.STATE_PLAY ∧
    AnyStuck StuckExtendGame.balls = true ∧
    StuckExtendGame.paddle.width = 120 ∧
    StuckExtendGame.paddle_target_w = 192 ∧
    (Frame SampleLib IdleInput StuckExtendGame).paddle.width = 120 ∧
    (Frame SampleLib IdleInput StuckExtendGame).paddle.width ≠
      StuckExtendGame.paddle.width +
        (StuckExtendGame.paddle_target_w - StuckExtendGame.paddle.width) * 8 * IdleInput.dt := by
  decide!

/-! ## Spawning power-ups -/

theorem SpawnPowerupFrom_full (idxs : List (Fin MAX_POWERUPS))
    (powerups : Fin MAX_POWERUPS → Powerup) (pos : Vector2) (t : PowerType)
    (h : ∀ p ∈ idxs, (powerups p).active = true) :
    SpawnPowerupFrom idxs powerups pos t = powerups := by
  induction idxs with
  | nil => rfl
  | cons p rest ih =>
    unfold SpawnPowerupFrom
    rw [if_neg (by simp [h p (List.mem_cons_self p rest)])]
    exact ih (fun j hj => h j (List.mem_cons_of_mem p hj))

theorem SpawnPowerupFrom_first (idxs : List (Fin MAX_POWERUPS))
    (powerups : Fin MAX_POWERUPS → Powerup) (pos : Vector2) (t : PowerType)
    (hs : idxs.Pairwise (· < ·)) (hex : ∃ p ∈ idxs, (powerups p).active = false) :
    ∃ p ∈ idxs, (powerups p).active = false ∧
      (∀ j ∈ idxs, j < p → (powerups j).active = true) ∧
      SpawnPowerupFrom idxs powerups pos t =
        Function.update powerups p
          { powerups p with active := true, pos := pos, vel := ⟨0, 160⟩, radius := 12, type := t } := by
  induction idxs with
  | nil =>
    obtain ⟨p, hp, _⟩ := hex
    exact absurd hp (List.not_mem_nil p)
  | cons c rest ih =>
    rw [List.pairwise_cons] at hs
    cases hc : (powerups c).active
    · refine ⟨c, List.mem_cons_self c rest, hc, ?_, ?_⟩
      · intro j hj hlt
        rcases List.mem_cons.mp hj with e | e
        · subst e; exact absurd hlt (lt_irrefl _)
        · exact absurd hlt (not_lt.mpr (le_of_lt (hs.1 j e)))
      · unfold SpawnPowerupFrom
        rw [if_pos (by simp [hc])]
    · have hex2 : ∃ p ∈ rest, (powerups p).active = false := by
        obtain ⟨p, hp, ho⟩ := hex
        rcases List.mem_cons.mp hp with e | e
        · subst e; rw [hc] at ho; exact absurd ho (by decide)
        · exact ⟨p, e, ho⟩
      obtain ⟨p, hp, ho, hfirst, heq⟩ := ih hs.2 hex2
      refine ⟨p, List.mem_cons_of_mem c hp, ho, ?_, ?_⟩
      · intro j hj hlt
        rcases List.mem_cons.mp hj with e | e
        · subst e; exact hc
        · exact hfirst j e hlt
      · unfold SpawnPowerupFrom
        rw [if_neg (by simp [hc])]
        exact heq

theorem FirstFree_unique (powerups : Fin MAX_POWERUPS → Powerup) (p q : Fin MAX_POWERUPS)
    (hp : FirstFree powerups p) (hq : FirstFree powerups q) : p = q := by
  rcases lt_trichotomy p q with h | h | h
  · have := hq.2 p h
    rw [hp.1] at this
    exact absurd this (by decide)
  · exact h
  · have := hp.2 q h
    rw [hq.1] at this
    exact absurd this (by decide)

theorem SpawnPowerup_free (powerups : Fin MAX_POWERUPS → Powerup) (pos : Vector2)
    (t : PowerType) (p : Fin MAX_POWERUPS) (hp : FirstFree powerups p) :
    SpawnPowerup powerups pos t =
      Function.update powerups p
        { powerups p with active := true, pos := pos, vel := ⟨0, 160⟩, radius := 12, type := t } := by
  obtain ⟨q, _, hq1, hq2, heq⟩ := SpawnPowerupFrom_first (List.finRange MAX_POWERUPS) powerups
    pos t (List.pairwise_lt_finRange MAX_POWERUPS) ⟨p, List.mem_finRange p, hp.1⟩
  have hqp : q = p :=
    FirstFree_unique powerups q p ⟨hq1, fun j hj => hq2 j (List.mem_finRange j) hj⟩ hp
  subst hqp
  exact heq

theorem SpawnPowerup_full (powerups : Fin MAX_POWERUPS → Powerup) (pos : Vector2)
    (t : PowerType) (h : ∀ p, (powerups p).active = true) :
    SpawnPowerup powerups pos t = powerups :=
  SpawnPowerupFrom_full _ powerups pos t (fun p _ => h p)

theorem CountPowerups_update_new (powerups : Fin MAX_POWERUPS → Powerup)
    (p : Fin MAX_POWERUPS) (pu : Powerup) (h1 : (powerups p).active = false)
    (h2 : pu.active = true) :
    CountPowerups (Function.update powerups p pu) = CountPowerups powerups + 1 := by
  unfold CountPowerups
  have hnot : p ∉ Finset.univ.filter (fun j => (powerups j).active = true) := by
    simp [h1]
  have hset : Finset.univ.filter (fun j => (Function.update powerups p pu j).active = true) =
      insert p (Finset.univ.filter (fun j => (powerups j).active = true)) := by
    ext j
    simp only [Finset.mem_filter, Finset.mem_univ, true_and, Finset.mem_insert]
    by_cases hj : j = p
    · subst hj
      simp [h2]
    · rw [Function.update_noteq hj]
      simp [hj]
  rw [hset, Finset.card_insert_of_not_mem hnot]

theorem FirstOverlap_unique (lib : Lib) (g : Game) (i : Fin MAX_BALLS) (b c : Fin MAX_BRICKS)
    (hb : FirstOverlap lib g i b) (hc : FirstOverlap lib g i c) : b = c := by
  rcases lt_trichotomy b c with h | h | h
  · exact absurd hb.1 (hc.2 b h)
  · exact h
  · exact absurd hc.1 (hb.2 c h)

theorem HitBrick_powerups (lib : Lib) (g : Game) (i : Fin MAX_BALLS) (b : Fin MAX_BRICKS)
    (hsolid : (g.bricks b).solid = false) (hhp : (g.bricks b).hp - 1 ≤ 0)
    (hpow : (g.bricks b).power_brick = true) :
    (HitBrick lib g i b).powerups =
      SpawnPowerup g.powerups (BrickCentre (g.bricks b)) (g.bricks b).power_type ∧
    ((HitBrick lib g i b).bricks b).alive = false := by
  unfold HitBrick BrickCentre
  dsimp only
  rw [if_pos (by simp [hsolid]), if_pos hhp, if_pos hpow]
  dsimp only
  rw [Function.update_same]
  exact ⟨rfl, rfl⟩

theorem UpdateBall_hit (lib : Lib) (dt cs : ℚ) (g : Game) (i : Fin MAX_BALLS)
    (b : Fin MAX_BRICKS)
    (hact : (g.balls i).active = true) (hst : (g.balls i).stuck = false)
    (hb : FirstOverlap lib (BeforeBricks lib dt cs g i) i b) :
    (UpdateBall lib dt cs g i).powerups =
      (HitBrick lib (BeforeBricks lib dt cs g i) i b).powerups ∧
    (UpdateBall lib dt cs g i).bricks = (HitBrick lib (BeforeBricks lib dt cs g i) i b).bricks := by
  rcases BrickLoop_result lib (BeforeBricks lib dt cs g i) i with ⟨hno, _⟩ | ⟨c, hc, heq⟩
  · exact absurd hb.1 (hno b)
  · have hcb := FirstOverlap_unique lib _ i c b hc hb
    subst hcb
    have hu := (UpdateBall_launched lib dt cs g i hact hst).1 (by rw [heq])
    rw [heq] at hu
    constructor <;> rw [hu]

theorem BeforeBricks_powerups (lib : Lib) (dt cs : ℚ) (g : Game) (i : Fin MAX_BALLS) :
    (BeforeBricks lib dt cs g i).powerups = g.powerups := by
  unfold BeforeBricks PaddleBounce
  dsimp only
  split_ifs <;> rfl

/-- Claim C14 (as the code has it): when the loop body of an active, launched
ball destroys a non-solid power-brick `b` (the first alive brick it overlaps,
with 1 hit-point), then, if some power-up slot is inactive, the first inactive
slot `p` becomes an active power-up of the brick's power type at the brick's
centre with velocity (0, 160) and radius 12, no other slot changes, and the
number of active power-ups grows by one; if all MAX_POWERUPS slots are active,
no slot changes and no power-up is spawned. -/
theorem C14_power_brick_spawns_powerup (lib : Lib) (dt cs : ℚ) (g : Game) (i : Fin MAX_BALLS)
    (b : Fin MAX_BRICKS)
    (hact : (g.balls i).active = true) (hst : (g.balls i).stuck = false)
    (hb : FirstOverlap lib (BeforeBricks lib dt cs g i) i b)
    (hsolid : (g.bricks b).solid = false) (hhp : (g.bricks b).hp = 1)
    (hpow : (g.bricks b).power_brick = true) :
    ((UpdateBall lib dt cs g i).bricks b).alive = false ∧
    (∀ p, FirstFree g.powerups p →
      (UpdateBall lib dt cs g i).powerups p =
        { pos := BrickCentre (g.bricks b), vel := ⟨0, 160⟩, radius := 12,
          type := (g.bricks b).power_type, active := true } ∧
      (∀ q, q ≠ p → (UpdateBall lib dt cs g i).powerups q = g.powerups q) ∧
      CountPowerups (UpdateBall lib dt cs g i).powerups = CountPowerups g.powerups + 1) ∧
    ((∀ p, (g.powerups p).active = true) →
      (UpdateBall lib dt cs g i).powerups = g.powerups ∧
      CountPowerups (UpdateBall lib dt cs g i).powerups = MAX_POWERUPS) := by
  obtain ⟨f1, _, _, _⟩ := BeforeBricks_fields lib dt cs g i
  have f5 := BeforeBricks_powerups lib dt cs g i
  obtain ⟨u1, u2⟩ := UpdateBall_hit lib dt cs g i b hact hst hb
  have hh := HitBrick_powerups lib (BeforeBricks lib dt cs g i) i b
    (by rw [f1]; exact hsolid) (by rw [f1, hhp]; decide) (by rw [f1]; exact hpow)
  rw [f1, f5] at hh
  refine ⟨by rw [u2]; exact hh.2, ?_, ?_⟩
  · intro p hp
    rw [u1, hh.1, SpawnPowerup_free g.powerups _ _ p hp]
    refine ⟨by rw [Function.update_same], fun q hq => by rw [Function.update_noteq hq], ?_⟩
    exact CountPowerups_update_new g.powerups p _ hp.1 rfl
  · intro hfull
    rw [u1, hh.1, SpawnPowerup_full g.powerups _ _ hfull]
    refine ⟨rfl, ?_⟩
    unfold CountPowerups
    rw [Finset.filter_true_of_mem (fun p _ => hfull p)]
    simp

/-- Witness for C14: the ball breaks the MULTIBALL brick 76 while two
power-ups are falling; slot 2 receives the new power-up. -/
theorem C14_power_brick_spawns_powerup_witness :
    CountPowerups (UpdateBall SampleLib (1 / 60) (CurrentSpeed (UnderPowerBrickGame 2))
        (UnderPowerBrickGame 2) 0).powerups =
      CountPowerups (UnderPowerBrickGame 2).powerups + 1 :=
  ((C14_power_brick_spawns_powerup SampleLib (1 / 60) (CurrentSpeed (UnderPowerBrickGame 2))
    (UnderPowerBrickGame 2) 0 ⟨76, by decide⟩ (by decide!) (by decide!)
    (by unfold FirstOverlap Overlaps; decide!) (by decide!) (by decide!) (by decide!)).2.1
      ⟨2, by decide⟩ (by unfold FirstFree; decide!)).2.2

/-- Counterexample to C14 as stated: with all six power-up slots active, the
ball destroys the MULTIBALL brick 76 and no power-up is spawned: the slots are
unchanged and the number of active power-ups stays 6. -/
theorem C14_counterexample :
    ((UnderPowerBrickGame 6).bricks ⟨76, by decide⟩).alive = true ∧
    ((UnderPowerBrickGame 6).bricks ⟨76, by decide⟩).solid = false ∧
    ((UnderPowerBrickGame 6).bricks ⟨76, by decide⟩).power_brick = true ∧
    ((UpdateBall SampleLib (1 / 60) (CurrentSpeed (UnderPowerBrickGame 6))
      (UnderPowerBrickGame 6) 0).bricks ⟨76, by decide⟩).alive = false ∧
    (UnderPowerBrickGame 6).breakable_left = CountBreakable (UnderPowerBrickGame 6).bricks ∧
    CountPowerups (UnderPowerBrickGame 6).powerups = 6 ∧
    CountPowerups (UpdateBall SampleLib (1 / 60) (CurrentSpeed (UnderPowerBrickGame 6))
      (UnderPowerBrickGame 6) 0).powerups = 6 ∧
    (∀ p, (UpdateBall SampleLib (1 / 60) (CurrentSpeed (UnderPowerBrickGame 6))
      (UnderPowerBrickGame 6) 0).powerups p = (UnderPowerBrickGame 6).powerups p) := by
  decide!

/-! ## The width after EXTEND -/

theorem PowerupLoop_target_kept (lib : Lib) (inp : Input) (st : Bool)
    (idxs : List (Fin MAX_POWERUPS)) (g : Game)
    (h : g.paddle_target_w = BASE_PADDLE_W * 1.6) :
    (PowerupLoop lib inp st idxs g).paddle_target_w = BASE_PADDLE_W * 1.6 := by
  induction idxs generalizing g with
  | nil => exact h
  | cons p rest ih =>
    unfold PowerupLoop
    rw [List.foldl_cons]
    apply ih
    unfold UpdatePowerup
    dsimp only
    split_ifs
    all_goals first
      | exact h
      | (rcases ApplyPower_target lib inp _ p with e | e
         · exact e.trans h
         · exact e)

theorem PlayFrame_target_eq (lib : Lib) (inp : Input) (g : Game) :
    (PlayFrame lib inp g).paddle_target_w =
      (PowerupLoop lib inp (AnyStuck g.balls) (List.finRange MAX_POWERUPS)
        (BallLoss (PlayBalls lib inp g))).paddle_target_w := by
  have s := SpeedTimer_bricks inp.dt (PowerupLoop lib inp (AnyStuck g.balls)
    (List.finRange MAX_POWERUPS) (BallLoss (PlayBalls lib inp g)))
  have c := ClearCheck_bricks (SpeedTimer inp.dt (PowerupLoop lib inp (AnyStuck g.balls)
    (List.finRange MAX_POWERUPS) (BallLoss (PlayBalls lib inp g))))
  unfold PlayFrame
  dsimp only
  exact c.2.2.2.2.2.trans s.2.2.2.2.2

theorem BallLoss_kept (g : Game) (h : AnyBall g.balls = true) : BallLoss g = g := by
  unfold BallLoss
  rw [if_neg (by simp [h])]

theorem CalmFrame_width (lib : Lib) (inp : Input) (g : Game)
    (hs : g.state = GameState.STATE_PLAY) (hst : AnyStuck g.balls = false)
    (hball : AnyBall (PlayBalls lib inp g).balls = true) (hdt : ShortFrame inp)
    (ht : g.paddle_target_w = 192) (hw : g.paddle.width ≤ 192) :
    g.paddle.width ≤ (Frame lib inp g).paddle.width ∧
    (Frame lib inp g).paddle.width ≤ (Frame lib inp g).paddle_target_w ∧
    (Frame lib inp g).paddle_target_w = 192 ∧ (Frame lib inp g).paddle.width ≤ 192 := by
  have e192 : BASE_PADDLE_W * 1.6 = 192 := by norm_num [BASE_PADDLE_W]
  have e : Frame lib inp g = PlayFrame lib inp g := by simp only [Frame, hs]
  have hwid : (Frame lib inp g).paddle.width =
      g.paddle.width + (g.paddle_target_w - g.paddle.width) * 8 * inp.dt := by
    rw [e, PlayFrame_paddle_eq, BallLoss_kept _ hball, (PlayBalls_paddle_eq lib inp g).1, hst]
    rfl
  have htar : (Frame lib inp g).paddle_target_w = 192 := by
    rw [e, PlayFrame_target_eq, ← e192]
    apply PowerupLoop_target_kept
    rw [BallLoss_kept _ hball, (PlayBalls_paddle_eq lib inp g).2, ht, e192]
  obtain ⟨d0, d1⟩ := hdt
  have h0 : 0 ≤ g.paddle_target_w - g.paddle.width := by rw [ht]; linarith
  have h8 : 0 ≤ 8 * inp.dt ∧ 8 * inp.dt ≤ 1 := ⟨by linarith, by linarith⟩
  have hmul : (g.paddle_target_w - g.paddle.width) * 8 * inp.dt =
      (g.paddle_target_w - g.paddle.width) * (8 * inp.dt) := by ring
  have hgrow : 0 ≤ (g.paddle_target_w - g.paddle.width) * 8 * inp.dt := by
    rw [hmul]; exact mul_nonneg h0 h8.1
  have hcap : (g.paddle_target_w - g.paddle.width) * 8 * inp.dt ≤
      g.paddle_target_w - g.paddle.width := by
    rw [hmul]
    calc (g.paddle_target_w - g.paddle.width) * (8 * inp.dt)
        ≤ (g.paddle_target_w - g.paddle.width) * 1 := mul_le_mul_of_nonneg_left h8.2 h0
      _ = g.paddle_target_w - g.paddle.width := mul_one _
  rw [hwid, htar]
  exact ⟨by linarith, by linarith, rfl, by linarith⟩

theorem CalmRun_width (lib : Lib) (inps : List Input) (g : Game)
    (hdt : ∀ inp ∈ inps, ShortFrame inp) (hrun : CalmRun lib g inps)
    (ht : g.paddle_target_w = 192) (hw : g.paddle.width ≤ 192) : WidthGrows lib g inps := by
  induction inps generalizing g with
  | nil => trivial
  | cons inp rest ih =>
    obtain ⟨hs, hst, hball, hrest⟩ := hrun
    obtain ⟨w1, w2, w3, w4⟩ := CalmFrame_width lib inp g hs hst hball
      (hdt inp (List.mem_cons_self inp rest)) ht hw
    exact ⟨w1, w2, w3, ih _ (fun i hi => hdt i (List.mem_cons_of_mem inp hi)) hrest w3 w4⟩

/-- Claim C15 (as the code has it): collecting an EXTEND power-up sets the
target width to 1.6 * 120 = 192; and from a state with target width 192 and
width at most 192 (such as the base width 120), along every sequence of Play
frames with no ball stuck, no loss of all balls, and frame deltas between 0
and 1/8 second, the paddle width never decreases from frame to frame and never
exceeds the target width, which stays 192. -/
theorem C15_width_approaches_extended_target (lib : Lib) (inp : Input) (st : Bool)
    (g g2 : Game) (p : Fin MAX_POWERUPS) (inps : List Input)
    (hdt : ∀ i ∈ inps, ShortFrame i) (hrun : CalmRun lib g inps)
    (ht : g.paddle_target_w = 192) (hw : g.paddle.width ≤ 192) :
    (Collects lib inp st g2 p = true → (g2.powerups p).type = PowerType.POWER_EXTEND →
      (UpdatePowerup lib inp st g2 p).paddle_target_w = BASE_PADDLE_W * 1.6 ∧
      (UpdatePowerup lib inp st g2 p).paddle_target_w = 192 ∧
      (UpdatePowerup lib inp st g2 p).paddle.width = g2.paddle.width) ∧
    WidthGrows lib g inps := by
  refine ⟨?_, CalmRun_width lib inps g hdt hrun ht hw⟩
  intro hc hty
  have e : (UpdatePowerup lib inp st g2 p).paddle_target_w = BASE_PADDLE_W * 1.6 := by
    rw [UpdatePowerup_collects lib inp st g2 p hc]
    unfold ApplyPower
    dsimp only
    rw [Collected_type, hty]
    simp
  refine ⟨e, ?_, ?_⟩
  · rw [e]; norm_num [BASE_PADDLE_W]
  · rw [(UpdatePowerup_keeps lib inp st g2 p).2.2.2.2.2.2]

/-- Witness for C15: two idle frames of 1/60 s after an EXTEND power-up was
collected at base width. -/
theorem C15_width_approaches_extended_target_witness :
    WidthGrows SampleLib ExtendedGame [IdleInput, IdleInput] :=
  (C15_width_approaches_extended_target SampleLib IdleInput false ExtendedGame
    (PickupGame PowerType.POWER_EXTEND 120 120) 0 [IdleInput, IdleInput]
    (by intro i hi; simp at hi; subst hi; norm_num [ShortFrame, IdleInput])
    ⟨by decide!, by decide!, by decide!, by decide!, by decide!, by decide!, trivial⟩
    (by decide!) (by decide!)).2

/-- Counterexample to C15 as stated: after an EXTEND power-up was collected at
base width (width 120, target 192), a Play frame of 1/4 s with no ball stuck
and no life lost ends with width 264, above the target width 192, and a second
such frame brings the width back down to 120. -/
theorem C15_counterexample :
    ExtendedGame.state = GameState.STATE_PLAY ∧
    ExtendedGame.paddle.width = 120 ∧
    ExtendedGame.paddle_target_w = 192 ∧
    0 ≤ SlowInput.dt ∧
    AnyStuck ExtendedGame.balls = false ∧
    (Frame SampleLib SlowInput ExtendedGame).lives = ExtendedGame.lives ∧
    (Frame SampleLib SlowInput ExtendedGame).state = GameState.STATE_PLAY ∧
    (Frame SampleLib SlowInput ExtendedGame).paddle_target_w = 192 ∧
    (Frame SampleLib SlowInput ExtendedGame).paddle.width = 264 ∧
    (Frame SampleLib SlowInput ExtendedGame).paddle_target_w <
      (Frame SampleLib SlowInput ExtendedGame).paddle.width ∧
    AnyStuck (Frame SampleLib SlowInput ExtendedGame).balls = false ∧
    (Frame SampleLib SlowInput (Frame SampleLib SlowInput ExtendedGame)).lives =
      ExtendedGame.lives ∧
    (Frame SampleLib SlowInput (Frame SampleLib SlowInput ExtendedGame)).paddle.width = 120 ∧
    (Frame SampleLib SlowInput (Frame SampleLib SlowInput ExtendedGame)).paddle.width <
      (Frame SampleLib SlowInput ExtendedGame).paddle.width := by
  decide!

end PongRaylib
